/-
Verification of the trail-intersection matching engine of rabbit-miles
(`backend/match_activity_trail/lambda_function.py`).

The Python source is shallowly embedded below:
* pure numeric code becomes functions over `ℝ` (Python floats are modelled
  as real numbers, machine integers as `Int`/`Nat`);
* fallible code (a Python function that can raise) returns `Option`/`Except`,
  with `none`/`.error` standing for an escaping exception;
* the database and S3 are explicit state: association lists for the
  `activities`, `users` and `leaderboard_agg` tables, `Option` values for the
  two GeoJSON objects read from S3;
* `datetime.utcnow()` / SQL `now()` are a `now : Nat` parameter.

Definitions keep the source's names.  Theorems about the frozen claims come
after all definitions.
-/
import Mathlib

namespace RabbitMiles

/-! ## PolylineCodec (`decode_polyline`, lines 43-84)

The Python decoder walks the string; for each coordinate it reads two
base-63-offset 5-bit chunk groups (latitude then longitude).  Reading past the
end of the string raises `IndexError`, modelled as `none`.  `ord(c) - 63` can
be negative; Python's `& 0x1f` on a negative int equals `% 32` with a
non-negative result, which is exactly `Int.emod` by 32. -/

/-- One chunk group: the inner `while True` loop of `decode_polyline`.
`result |= (b & 0x1f) << shift` never overlaps previously written bits, and is
modelled by `Nat.lor` exactly as written.  Returns the accumulated value and
the unconsumed characters; `none` models the `IndexError` raised by
`polyline_str[index]` when the string is exhausted. -/
def decodeChunk : List Char → Nat → Nat → Option (Nat × List Char)
  | [], _, _ => none
  | c :: rest, shift, result =>
    let b : Int := (c.toNat : Int) - 63
    let result' := result ||| ((b % 32).toNat <<< shift)
    if b < 32 then some (result', rest)
    else decodeChunk rest (shift + 5) result'

/-- `~(result >> 1) if (result & 1) else (result >> 1)`; Python `~x = -x - 1`. -/
def zigzagDelta (result : Nat) : Int :=
  if result % 2 = 1 then -((result >>> 1 : Nat) : Int) - 1 else ((result >>> 1 : Nat) : Int)

theorem decodeChunk_length_lt :
    ∀ (cs : List Char) (shift result r : Nat) (rest : List Char),
      decodeChunk cs shift result = some (r, rest) → rest.length < cs.length := by
  intro cs
  induction cs with
  | nil => intro _ _ _ _ h; simp [decodeChunk] at h
  | cons c tl ih =>
    intro shift result r rest h
    simp only [decodeChunk] at h
    split at h
    · cases h; simp
    · exact Nat.lt_trans (ih _ _ _ _ h) (by simp)

/-- The outer `while index < len(polyline_str)` loop of `decode_polyline`,
accumulating integer (lat, lng) pairs before the final `/ 1e5` scaling. -/
def decodeLoop (cs : List Char) (lat lng : Int) : Option (List (Int × Int)) :=
  match cs with
  | [] => some []
  | c :: rest =>
    match h1 : decodeChunk (c :: rest) 0 0 with
    | none => none
    | some (r1, cs1) =>
      match h2 : decodeChunk cs1 0 0 with
      | none => none
      | some (r2, cs2) =>
        let lat' := lat + zigzagDelta r1
        let lng' := lng + zigzagDelta r2
        (decodeLoop cs2 lat' lng').map (fun tail => (lat', lng') :: tail)
termination_by cs.length
decreasing_by
  exact Nat.lt_trans (decodeChunk_length_lt _ _ _ _ _ h2) (decodeChunk_length_lt _ _ _ _ _ h1)

/-- `decode_polyline(polyline_str)`: cumulative integer deltas scaled by
`1e-5`.  `none` models an escaping exception (the caller at line 592 of the
lambda does not catch it); note the empty string yields `some []`, not an
error. -/
noncomputable def decode_polyline (polyline_str : String) : Option (List (ℝ × ℝ)) :=
  (decodeLoop polyline_str.data 0 0).map
    (List.map fun p => ((p.1 : ℝ) / 100000, (p.2 : ℝ) / 100000))

/-! Spec-side grammar of a well-formed encoded polyline (§4.1 of the spec:
"standard zig-zag delta decoding, 5-bit chunks offset by 63, alternating
latitude/longitude passes"): an even number of complete chunk groups, where a
chunk group is a run of continuation characters (`ord c - 63 ≥ 0x20`) ended by
a terminator (`ord c - 63 < 0x20`).  Used to settle claim C7. -/

/-- Drop one complete chunk group, `none` if the input ends inside it. -/
def dropChunkGroup : List Char → Option (List Char)
  | [] => none
  | c :: rest => if ((c.toNat : Int) - 63) < 32 then some rest else dropChunkGroup rest

theorem dropChunkGroup_length_lt :
    ∀ (cs rest : List Char), dropChunkGroup cs = some rest → rest.length < cs.length := by
  intro cs
  induction cs with
  | nil => intro _ h; simp [dropChunkGroup] at h
  | cons c tl ih =>
    intro rest h
    simp only [dropChunkGroup] at h
    split at h
    · cases h; simp
    · exact Nat.lt_trans (ih _ h) (by simp)

/-- A char stream is a well-formed polyline iff it is an even sequence of
complete chunk groups (a latitude/longitude pair per coordinate). -/
def wellFormedPolyline (cs : List Char) : Bool :=
  match cs with
  | [] => true
  | c :: rest =>
    match h1 : dropChunkGroup (c :: rest) with
    | none => false
    | some cs1 =>
      match h2 : dropChunkGroup cs1 with
      | none => false
      | some cs2 => wellFormedPolyline cs2
termination_by cs.length
decreasing_by
  exact Nat.lt_trans (dropChunkGroup_length_lt _ _ h2) (dropChunkGroup_length_lt _ _ h1)

/-! ## GeoMath (`haversine_distance` lines 87-105, `point_to_segment_distance`
lines 108-140)

Python floats become `ℝ`; `math.radians x = x * pi / 180`;
`math.asin`/`math.sqrt` become `Real.arcsin`/`Real.sqrt`.  Comparisons on `ℝ`
are not decidable, so definitions branching on them use classical
decidability and are `noncomputable`. -/

/-- Great circle distance in meters, Earth radius 6,371,000 m. -/
noncomputable def haversine_distance (lat1 lon1 lat2 lon2 : ℝ) : ℝ :=
  let lon1r := lon1 * Real.pi / 180
  let lat1r := lat1 * Real.pi / 180
  let lon2r := lon2 * Real.pi / 180
  let lat2r := lat2 * Real.pi / 180
  let dlon := lon2r - lon1r
  let dlat := lat2r - lat1r
  let a := Real.sin (dlat / 2) ^ 2 +
    Real.cos lat1r * Real.cos lat2r * Real.sin (dlon / 2) ^ 2
  let c := 2 * Real.arcsin (Real.sqrt a)
  c * 6371000

open Classical in
/-- Minimum distance from point `(px, py)` to segment `(ax, ay) -> (bx, by)`:
planar projection with the parameter `t` clamped to `[0,1]`, spherical final
distance.  Coordinates are passed as (x, y) = (lon, lat) by all callers. -/
noncomputable def point_to_segment_distance (px py ax ay bx bY : ℝ) : ℝ :=
  let abx := bx - ax
  let aby := bY - ay
  let apx := px - ax
  let apy := py - ay
  if abx = 0 ∧ aby = 0 then haversine_distance py px ay ax
  else
    let ab_ab := abx * abx + aby * aby
    let ap_ab := apx * abx + apy * aby
    let t := ap_ab / ab_ab
    let t' := max 0 (min 1 t)
    let closest_x := ax + t' * abx
    let closest_y := ay + t' * aby
    haversine_distance py px closest_y closest_x

/-! ## IntersectionMatcher (`calculate_trail_intersection`, lines 205-357)

The Python function is split into named pieces (the Stage A bounding-box
rejection, the Stage B sampling rejection, and the per-edge Stage C
classification); `calculate_trail_intersection` below chains them exactly as
the source does.  Loops that only search for one hit (`break` as soon as a
flag is set) are value-equal to existential quantification over the same
index ranges, which is how they are written here. -/

/-- Python `min(list)` (callers only apply it to non-empty lists; the `[]`
case is an arbitrary default). -/
noncomputable def listMin : List ℝ → ℝ
  | [] => 0
  | x :: xs => xs.foldl min x

/-- Python `max(list)`. -/
noncomputable def listMax : List ℝ → ℝ
  | [] => 0
  | x :: xs => xs.foldl max x

/-- Python `range(0, stop, step)` for `step ≥ 1`. -/
def pyRange (stop step : Nat) : List Nat :=
  (List.range ((stop + step - 1) / step)).map (· * step)

/-- Length of activity edge `i` (the haversine distance of consecutive
activity points, line 305). -/
noncomputable def edge_length (activity_coords : List (ℝ × ℝ)) (i : Nat) : ℝ :=
  let p1 := activity_coords.getD i (0, 0)
  let p2 := activity_coords.getD (i + 1) (0, 0)
  haversine_distance p1.1 p1.2 p2.1 p2.2

/-- The running `total_distance` of the Stage C loop: sum of the haversine
lengths of all consecutive activity-point pairs. -/
noncomputable def total_activity_distance (activity_coords : List (ℝ × ℝ)) : ℝ :=
  ((List.range (activity_coords.length - 1)).map (edge_length activity_coords)).sum

/-- Stage A rejection condition (lines 245-248): the two bounding boxes,
expanded by `tolerance_meters / 111000` degrees, do not overlap. -/
noncomputable def bbox_reject (activity_coords all_trail_points : List (ℝ × ℝ))
    (tolerance_meters : ℝ) : Prop :=
  let activity_lats := activity_coords.map Prod.fst
  let activity_lons := activity_coords.map Prod.snd
  let trail_lats := all_trail_points.map Prod.fst
  let trail_lons := all_trail_points.map Prod.snd
  let tolerance_degrees := tolerance_meters / 111000
  listMax activity_lats + tolerance_degrees < listMin trail_lats ∨
  listMin activity_lats - tolerance_degrees > listMax trail_lats ∨
  listMax activity_lons + tolerance_degrees < listMin trail_lons ∨
  listMin activity_lons - tolerance_degrees > listMax trail_lons

/-- Stage B `found_nearby` (lines 255-287): some of ≤ 20 evenly spaced
activity points is within 5× tolerance of some strided trail sub-segment. -/
noncomputable def sample_found_nearby (activity_coords : List (ℝ × ℝ))
    (trail_segments : List (List (ℝ × ℝ))) (tolerance_meters : ℝ) : Prop :=
  let n := activity_coords.length
  let sample_size := min 20 n
  let sample_indices := (List.range sample_size).map
    (fun i => i * (n - 1) / max 1 (sample_size - 1))
  ∃ idx ∈ sample_indices, idx < n ∧
    let p := activity_coords.getD idx (0, 0)
    ∃ seg_idx ∈ pyRange trail_segments.length (max 1 (trail_segments.length / 20)),
      let segment := trail_segments.getD seg_idx []
      ∃ j ∈ pyRange (segment.length - 1) (max 1 (segment.length / 10)),
        let t1 := segment.getD j (0, 0)
        let t2 := if j + 1 < segment.length then segment.getD (j + 1) (0, 0)
                  else segment.getD j (0, 0)
        point_to_segment_distance p.2 p.1 t1.2 t1.1 t2.2 t2.1 ≤ tolerance_meters * 5

/-- Stage C edge classification (lines 308-344): the midpoint of activity
edge `i` is within tolerance of some trail sub-segment that survives the
cheap per-edge bounding-box pre-check.  Trail segments are iterated
independently, never bridged. -/
noncomputable def edge_on_trail (activity_coords : List (ℝ × ℝ))
    (trail_segments : List (List (ℝ × ℝ))) (tolerance_meters : ℝ) (i : Nat) : Prop :=
  let p1 := activity_coords.getD i (0, 0)
  let p2 := activity_coords.getD (i + 1) (0, 0)
  let mid_lat := (p1.1 + p2.1) / 2
  let mid_lon := (p1.2 + p2.2) / 2
  let tolerance_degrees := tolerance_meters / 111000
  ∃ segment ∈ trail_segments, ∃ j ∈ List.range (segment.length - 1),
    let t1 := segment.getD j (0, 0)
    let t2 := segment.getD (j + 1) (0, 0)
    ¬ (mid_lat < min t1.1 t2.1 - tolerance_degrees ∨
       mid_lat > max t1.1 t2.1 + tolerance_degrees ∨
       mid_lon < min t1.2 t2.2 - tolerance_degrees ∨
       mid_lon > max t1.2 t2.2 + tolerance_degrees) ∧
    point_to_segment_distance mid_lon mid_lat t1.2 t1.1 t2.2 t2.1 ≤ tolerance_meters

open Classical in
/-- The Stage C loop's `distance_on_trail`: sum of the lengths of the
on-trail activity edges (lines 296-349). -/
noncomputable def stage_c_distance (activity_coords : List (ℝ × ℝ))
    (trail_segments : List (List (ℝ × ℝ))) (tolerance_meters : ℝ) : ℝ :=
  ((List.range (activity_coords.length - 1)).map
    (fun i => if edge_on_trail activity_coords trail_segments tolerance_meters i
              then edge_length activity_coords i else 0)).sum

open Classical in
/-- `calculate_trail_intersection(activity_coords, trail_segments,
tolerance_meters) -> (distance_on_trail_meters, time_ratio)`.  The local
variables `distance_on_trail` and `total_distance` of the source are the
named functions `stage_c_distance` and `total_activity_distance`. -/
noncomputable def calculate_trail_intersection (activity_coords : List (ℝ × ℝ))
    (trail_segments : List (List (ℝ × ℝ))) (tolerance_meters : ℝ) : ℝ × ℝ :=
  if activity_coords = [] ∨ trail_segments = [] then (0, 0)
  else
    -- `all_trail_points` (line 221) is the flattening of all trail segments
    if bbox_reject activity_coords (trail_segments.flatMap (fun segment => segment))
        tolerance_meters then (0, 0)
    else if ¬ sample_found_nearby activity_coords trail_segments tolerance_meters then (0, 0)
    else
      (stage_c_distance activity_coords trail_segments tolerance_meters,
       if total_activity_distance activity_coords > 0 then
         stage_c_distance activity_coords trail_segments tolerance_meters /
           total_activity_distance activity_coords
       else 0)

/-! ## Trail loader (`load_trail_data_from_s3`, lines 143-202)

An S3 object that is absent, unreadable, or fails JSON parsing makes the
whole per-collection `try` block fail; this is modelled by an
`Option GeoJSON` input per collection (`none` = the per-collection exception,
which the source catches and ignores).  GeoJSON coordinates are (lon, lat)
pairs and are flipped to (lat, lon) at extraction. -/

inductive Geometry where
  | lineString (coordinates : List (ℝ × ℝ))
  | multiLineString (coordinates : List (List (ℝ × ℝ)))
  | otherType

structure Feature where
  geometry : Geometry

structure GeoJSON where
  features : List Feature

/-- Per-collection extraction loop: every LineString / MultiLineString line of
every feature becomes one independent segment, flipped to (lat, lon), and
kept only when it has at least 2 points. -/
def extractSegments (g : GeoJSON) : List (List (ℝ × ℝ)) :=
  g.features.flatMap fun f =>
    match f.geometry with
    | .lineString coords =>
      let segment := coords.map fun p => (p.2, p.1)
      if 2 ≤ segment.length then [segment] else []
    | .multiLineString lines =>
      lines.flatMap fun line =>
        let segment := line.map fun p => (p.2, p.1)
        if 2 ≤ segment.length then [segment] else []
    | .otherType => []

/-- `load_trail_data_from_s3()`: main collection then spurs collection, each
failure swallowed; raises `RuntimeError` (modelled `none`) only when no
segment at all was collected. -/
def load_trail_data_from_s3 (main_geojson spurs_geojson : Option GeoJSON) :
    Option (List (List (ℝ × ℝ))) :=
  let trail_segments :=
    (main_geojson.elim [] extractSegments) ++ (spurs_geojson.elim [] extractSegments)
  if trail_segments.isEmpty then none else some trail_segments

/-! ## Dates and window keys (`get_window_keys`, lines 421-461)

`datetime.fromisoformat` (after the source's `replace('Z', '+00:00')`
preprocessing) is modelled for strings of the shape
`YYYY-MM-DD[<sep>HH[:MM[:SS[.fff|.ffffff]]]][±HH:MM]`, validating field
ranges the way `datetime` does (year 1-9999, valid month/day, hour < 24,
minute/second < 60, offset hour < 24 / minute < 60); anything else is a
parse failure, which `get_window_keys` turns into `None`.

Date arithmetic (`dt.weekday()`, `dt - timedelta(days=k)`) is modelled
through the standard proleptic-Gregorian civil-calendar conversion between
(year, month, day) and a day number with epoch 1970-01-01; Python's
`weekday()` (Monday = 0) is `(dayNumber + 3) % 7` since 1970-01-01 was a
Thursday.  Subtracting days below `datetime.min` (0001-01-01) raises
`OverflowError`, which the source's catch-all turns into `None`. -/

structure PyDateTime where
  year : Nat
  month : Nat
  day : Nat
  hour : Nat
  minute : Nat
  second : Nat
deriving DecidableEq, Repr

def isLeapYear (y : Nat) : Bool := y % 4 = 0 && (y % 100 ≠ 0 || y % 400 = 0)

def daysInMonth (y m : Nat) : Nat :=
  if m = 2 then (if isLeapYear y then 29 else 28)
  else if m = 4 ∨ m = 6 ∨ m = 9 ∨ m = 11 then 30 else 31

/-- `s.replace('Z', '+00:00')` on the char list (line 433). -/
def replaceZ : List Char → List Char
  | [] => []
  | c :: rest =>
    if c = 'Z' then '+' :: '0' :: '0' :: ':' :: '0' :: '0' :: replaceZ rest
    else c :: replaceZ rest

/-- Read exactly `k` decimal digits, most significant first. -/
def parseFixedNat : Nat → Nat → List Char → Option (Nat × List Char)
  | 0, acc, cs => some (acc, cs)
  | _ + 1, _, [] => none
  | k + 1, acc, c :: cs =>
    if c.isDigit then parseFixedNat k (acc * 10 + (c.toNat - 48)) cs else none

def expectChar (c : Char) : List Char → Option (List Char)
  | [] => none
  | d :: cs => if d = c then some cs else none

/-- `±HH:MM` UTC-offset suffix (after `Z` was rewritten to `+00:00`). -/
def parseOffset (cs : List Char) : Option (List Char) :=
  match cs with
  | c :: rest =>
    if c = '+' ∨ c = '-' then
      match parseFixedNat 2 0 rest with
      | none => none
      | some (oh, rest1) =>
        match expectChar ':' rest1 with
        | none => none
        | some rest2 =>
          match parseFixedNat 2 0 rest2 with
          | none => none
          | some (om, rest3) =>
            if oh < 24 ∧ om < 60 then some rest3 else none
    else none
  | [] => none

/-- `HH[:MM[:SS[.fff|.ffffff]]]` with range validation; returns
(hour, minute, second, rest).  Fractional seconds are validated and
discarded (they never influence window keys). -/
def parseTimePart (cs : List Char) : Option (Nat × Nat × Nat × List Char) :=
  match parseFixedNat 2 0 cs with
  | none => none
  | some (hh, rest1) =>
    if hh ≥ 24 then none
    else
      match rest1 with
      | ':' :: rest2 =>
        match parseFixedNat 2 0 rest2 with
        | none => none
        | some (mm, rest3) =>
          if mm ≥ 60 then none
          else
            match rest3 with
            | ':' :: rest4 =>
              match parseFixedNat 2 0 rest4 with
              | none => none
              | some (ss, rest5) =>
                if ss ≥ 60 then none
                else
                  match rest5 with
                  | '.' :: rest6 =>
                    match parseFixedNat 6 0 rest6 with
                    | some (_, rest7) => some (hh, mm, ss, rest7)
                    | none =>
                      match parseFixedNat 3 0 rest6 with
                      | some (_, rest7) => some (hh, mm, ss, rest7)
                      | none => none
                  | _ => some (hh, mm, ss, rest5)
            | _ => some (hh, mm, 0, rest3)
      | _ => some (hh, 0, 0, rest1)

/-- Model of `datetime.fromisoformat` on the preprocessed string. -/
def python_fromisoformat (s : String) : Option PyDateTime :=
  match parseFixedNat 4 0 s.data with
  | none => none
  | some (y, r1) =>
    match expectChar '-' r1 with
    | none => none
    | some r2 =>
      match parseFixedNat 2 0 r2 with
      | none => none
      | some (mo, r3) =>
        match expectChar '-' r3 with
        | none => none
        | some r4 =>
          match parseFixedNat 2 0 r4 with
          | none => none
          | some (d, r5) =>
            if 1 ≤ y ∧ 1 ≤ mo ∧ mo ≤ 12 ∧ 1 ≤ d ∧ d ≤ daysInMonth y mo then
              match r5 with
              | [] => some ⟨y, mo, d, 0, 0, 0⟩
              | _ :: rest =>          -- any single separator character
                match parseTimePart rest with
                | none => none
                | some (hh, mm, ss, r6) =>
                  match r6 with
                  | [] => some ⟨y, mo, d, hh, mm, ss⟩
                  | _ =>
                    match parseOffset r6 with
                    | some [] => some ⟨y, mo, d, hh, mm, ss⟩
                    | _ => none
            else none

/-- Day number of a civil (proleptic Gregorian) date, epoch 1970-01-01
(Howard Hinnant's `days_from_civil`; all divisions are truncating, matching
`Int` division on the non-negative operands that arise for years ≥ 1). -/
def daysFromCivil (y m d : Int) : Int :=
  let y' := if m ≤ 2 then y - 1 else y
  let era := (if 0 ≤ y' then y' else y' - 399) / 400
  let yoe := y' - era * 400
  let mp := if 2 < m then m - 3 else m + 9
  let doy := (153 * mp + 2) / 5 + d - 1
  let doe := yoe * 365 + yoe / 4 - yoe / 100 + doy
  era * 146097 + doe - 719468

/-- Inverse conversion (`civil_from_days`): (year, month, day) of a day
number. -/
def civilFromDays (z : Int) : Int × Int × Int :=
  let z' := z + 719468
  let era := (if 0 ≤ z' then z' else z' - 146096) / 146097
  let doe := z' - era * 146097
  let yoe := (doe - doe / 1460 + doe / 36524 - doe / 146096) / 365
  let y := yoe + era * 400
  let doy := doe - (365 * yoe + yoe / 4 - yoe / 100)
  let mp := (5 * doy + 2) / 153
  let d := doy - (153 * mp + 2) / 5 + 1
  let m := if mp < 10 then mp + 3 else mp - 9
  (if m ≤ 2 then y + 1 else y, m, d)

/-- `dt.weekday()`: Monday = 0.  1970-01-01 was a Thursday (3). -/
def pyWeekday (dt : PyDateTime) : Int :=
  (daysFromCivil dt.year dt.month dt.day + 3) % 7

/-- Day number of `datetime.min` = 0001-01-01. -/
def pyDatetimeMinDays : Int := daysFromCivil 1 1 1

/-- Zero-padded decimal rendering, as `strftime` field formatting. -/
def padNum (w n : Nat) : String :=
  let s := Nat.repr n
  String.mk (List.replicate (w - s.length) '0') ++ s

/-- `strftime('%Y-%m-%d')`. -/
def fmtDate (y m d : Nat) : String := padNum 4 y ++ "-" ++ padNum 2 m ++ "-" ++ padNum 2 d

structure WindowKeys where
  week : String
  month : String
  year : String
deriving DecidableEq, Repr

/-- `get_window_keys(start_date_local)` (lines 421-461): parse the ISO
timestamp; the week key is the ISO date of `dt` minus `dt.weekday()` days
(time-of-day zeroed first, which cannot change the date), the month and year
keys are `strftime` renderings of `dt` itself.  Any exception — parse
failure, or `OverflowError` from stepping before `datetime.min` — yields
`none`. -/
def get_window_keys (start_date_local : String) : Option WindowKeys :=
  match python_fromisoformat (String.mk (replaceZ start_date_local.data)) with
  | none => none
  | some dt =>
    let days_since_monday := pyWeekday dt
    let n := daysFromCivil dt.year dt.month dt.day
    let mondayDays := if 0 < days_since_monday then n - days_since_monday else n
    if mondayDays < pyDatetimeMinDays then none
    else
      let c := civilFromDays mondayDays
      let week_key := "week_" ++ fmtDate c.1.toNat c.2.1.toNat c.2.2.toNat
      let month_key := "month_" ++ (padNum 4 dt.year ++ "-" ++ padNum 2 dt.month)
      let year_key := "year_" ++ padNum 4 dt.year
      some ⟨week_key, month_key, year_key⟩

/-- Spec-side notion (§4.6: "week = week_ + ISO date of Monday on/before
date"): the day number of the Monday on or before day `n`.  Day numbers with
`(k + 3) % 7 = 0` are Mondays (1970-01-01, day 0, was a Thursday). -/
def mondayOnOrBefore (n : Int) : Int := n - (n + 3) % 7

/-! ## Database model and orchestrator (lines 360-649)

The three tables touched by this Lambda are association lists; SQL reads are
first-match lookups, SQL `UPDATE ... WHERE id` / `ON CONFLICT ... DO UPDATE`
rewrite every matching entry.  `datetime.utcnow()` / SQL `now()` are the
`now : Nat` parameter. -/

/-- The columns of `activities` read or written by this Lambda
(`get_activity_from_db` also reads `start_date_local` and `type` through
`update_leaderboard_after_trail_matching`).  Nullable columns are `Option`;
`get_activity_from_db` applies `COALESCE(distance_on_trail, 0)`. -/
structure ActivityRow where
  athlete_id : Int
  strava_activity_id : Int
  polyline : String
  moving_time : Int
  distance : ℝ
  distance_on_trail : Option ℝ
  time_on_trail : Option Int
  last_matched : Option Nat
  start_date_local : String
  type : String

/-- The `ON CONFLICT` key of `leaderboard_agg`:
(window_key, metric, activity_type, athlete_id). -/
structure AggKey where
  window_key : String
  metric : String
  activity_type : String
  athlete_id : Int
deriving DecidableEq, Repr

/-- Non-key columns of `leaderboard_agg`; `window` is set on insert and left
unchanged by the conflict update, `value`/`last_updated` are written by
both. -/
structure AggRow where
  window : String
  value : ℝ
  last_updated : Nat

structure DBState where
  activities : List (Int × ActivityRow)
  users : List (Int × Bool)
  agg : List (AggKey × AggRow)

def lookupActivity : List (Int × ActivityRow) → Int → Option ActivityRow
  | [], _ => none
  | p :: rest, id => if p.1 = id then some p.2 else lookupActivity rest id

/-- `SELECT show_on_leaderboards FROM users WHERE athlete_id = :aid`;
`none` models both a missing row and a NULL value, which the source treats
alike (`.get("booleanValue", False)`). -/
def lookupUser : List (Int × Bool) → Int → Option Bool
  | [], _ => none
  | p :: rest, aid => if p.1 = aid then some p.2 else lookupUser rest aid

def aggLookup : List (AggKey × AggRow) → AggKey → Option AggRow
  | [], _ => none
  | p :: rest, k => if p.1 = k then some p.2 else aggLookup rest k

/-- `update_activity_trail_metrics` (lines 400-418): set
`distance_on_trail`, `time_on_trail` and `last_matched` on the row with the
given id. -/
def update_activity_trail_metrics (activity_id : Int) (distance_on_trail : ℝ)
    (time_on_trail : Int) (now : Nat) (st : DBState) : DBState :=
  { st with
    activities := st.activities.map fun p =>
      if p.1 = activity_id then
        (p.1, { p.2 with
                distance_on_trail := some distance_on_trail
                time_on_trail := some time_on_trail
                last_matched := some now })
      else p }

/-- The `INSERT ... ON CONFLICT ... DO UPDATE SET value = value + EXCLUDED.value`
upsert of lines 525-543. -/
def aggUpsert (agg : List (AggKey × AggRow)) (k : AggKey) (window : String)
    (delta : ℝ) (now : Nat) : List (AggKey × AggRow) :=
  match aggLookup agg k with
  | some _ =>
    agg.map fun p => if p.1 = k then (p.1, ⟨p.2.window, p.2.value + delta, now⟩) else p
  | none => agg ++ [(k, ⟨window, delta, now⟩)]

open Classical in
/-- `update_leaderboard_after_trail_matching` (lines 464-552).  Every early
`return` (opted-out or unknown athlete, missing activity, empty
`start_date_local`, zero delta, unparseable date) leaves the state
untouched; otherwise one upsert per (window, bucket) pair, windows iterated
week/month/year, buckets `all` then `foot`/`bike`.  The surrounding
`try/except` swallows failures; the model has no failing operation, so it
does not appear. -/
noncomputable def update_leaderboard_after_trail_matching (activity_id athlete_id : Int)
    (distance_on_trail old_distance_on_trail : ℝ) (now : Nat) (st : DBState) : DBState :=
  match lookupUser st.users athlete_id with
  | none => st
  | some false => st
  | some true =>
    match lookupActivity st.activities activity_id with
    | none => st
    | some row =>
      if row.start_date_local = "" then st
      else
        let distance_delta := distance_on_trail - old_distance_on_trail
        if distance_delta = 0 then st
        else
          match get_window_keys row.start_date_local with
          | none => st
          | some window_keys =>
            let agg_types := ["all"] ++
              (if row.type = "Run" ∨ row.type = "Walk" then ["foot"]
               else if row.type = "Ride" then ["bike"] else [])
            let pairs := [("week", window_keys.week), ("month", window_keys.month),
                          ("year", window_keys.year)]
            let newAgg := pairs.foldl
              (fun a p => agg_types.foldl
                (fun a t =>
                  aggUpsert a ⟨p.2, "distance", t, athlete_id⟩ p.1 distance_delta now)
                a)
              st.agg
            { st with agg := newAgg }

open Classical in
/-- Python `int()` applied to a float: truncation toward zero. -/
noncomputable def pyInt (x : ℝ) : Int := if 0 ≤ x then ⌊x⌋ else ⌈x⌉

/-- `TRAIL_TOLERANCE_METERS = 25` (line 27). -/
noncomputable def TRAIL_TOLERANCE_METERS : ℝ := 25

inductive MatchMessage where
  | noPolyline        -- "No polyline data"
  | matched           -- "Successfully matched"
  | matchingFailed    -- "Matching failed: ..."
  | processingFailed  -- "Processing failed: ..."
deriving DecidableEq, Repr

/-- The per-activity result record returned by `match_activity`. -/
structure MatchResult where
  activity_id : Int
  distance_on_trail : ℝ
  time_on_trail : Int
  message : MatchMessage

/-- Exceptions that arise inside `match_activity`. -/
inductive PyExn where
  | valueError    -- "Activity ... not found" / "... has no athlete_id"
  | indexError    -- decode_polyline running off the string
deriving DecidableEq, Repr

/-- The body of `match_activity`'s outer `try` (lines 563-638).  `.error`
models an exception escaping the outer `try` block.  The inner `try`
(lines 598-638) is the `load_trail_data_from_s3` match: a trail-load failure
is caught there, persisting zero metrics and stamping `last_matched`. -/
noncomputable def match_activity_body (activity_id : Int)
    (main_geojson spurs_geojson : Option GeoJSON) (now : Nat) (st : DBState) :
    Except PyExn (DBState × MatchResult) :=
  match lookupActivity st.activities activity_id with
  | none => .error .valueError
  | some activity =>
    let athlete_id := activity.athlete_id
    if athlete_id = 0 then .error .valueError
    else
      let old_distance_on_trail := activity.distance_on_trail.getD 0
      if activity.polyline = "" then
        let st1 := update_activity_trail_metrics activity_id 0 0 now st
        let st2 := update_leaderboard_after_trail_matching activity_id athlete_id 0
          old_distance_on_trail now st1
        .ok (st2, ⟨activity_id, 0, 0, .noPolyline⟩)
      else
        match decode_polyline activity.polyline with
        | none => .error .indexError
        | some activity_coords =>
          match load_trail_data_from_s3 main_geojson spurs_geojson with
          | none =>
            -- inner `except`: matching failed, still stamp zero metrics
            let st1 := update_activity_trail_metrics activity_id 0 0 now st
            let st2 := if athlete_id ≠ 0 then
                update_leaderboard_after_trail_matching activity_id athlete_id 0
                  old_distance_on_trail now st1
              else st1
            .ok (st2, ⟨activity_id, 0, 0, .matchingFailed⟩)
          | some trail_segments =>
            let dr := calculate_trail_intersection activity_coords trail_segments
              TRAIL_TOLERANCE_METERS
            let distance_on_trail := dr.1
            let time_ratio := dr.2
            let time_on_trail := pyInt ((activity.moving_time : ℝ) * time_ratio)
            let st1 := update_activity_trail_metrics activity_id distance_on_trail
              time_on_trail now st
            let st2 := update_leaderboard_after_trail_matching activity_id athlete_id
              distance_on_trail old_distance_on_trail now st1
            .ok (st2, ⟨activity_id, distance_on_trail, time_on_trail, .matched⟩)

/-- `match_activity(activity_id)` (lines 555-649): the outer
`except Exception` catches everything, returning a "Processing failed"
record with no further persistence, so the function never raises. -/
noncomputable def match_activity (activity_id : Int)
    (main_geojson spurs_geojson : Option GeoJSON) (now : Nat) (st : DBState) :
    DBState × MatchResult :=
  match match_activity_body activity_id main_geojson spurs_geojson now st with
  | .ok r => r
  | .error _ => (st, ⟨activity_id, 0, 0, .processingFailed⟩)

/-! ## Lemmas about GeoMath and the IntersectionMatcher -/

theorem haversine_distance_nonneg (lat1 lon1 lat2 lon2 : ℝ) :
    0 ≤ haversine_distance lat1 lon1 lat2 lon2 := by
  unfold haversine_distance
  exact mul_nonneg
    (mul_nonneg (by norm_num) (Real.arcsin_nonneg.mpr (Real.sqrt_nonneg _)))
    (by norm_num)

theorem edge_length_nonneg (c : List (ℝ × ℝ)) (i : Nat) : 0 ≤ edge_length c i :=
  haversine_distance_nonneg _ _ _ _

theorem total_activity_distance_nonneg (c : List (ℝ × ℝ)) :
    0 ≤ total_activity_distance c := by
  apply List.sum_nonneg
  intro x hx
  obtain ⟨i, _, rfl⟩ := List.mem_map.mp hx
  exact edge_length_nonneg c i

theorem tolerance_degrees_mono {t1 t2 : ℝ} (h : t1 ≤ t2) : t1 / 111000 ≤ t2 / 111000 :=
  div_le_div_of_nonneg_right h (by norm_num)

/-- Stage A rejection is antitone in the tolerance: rejecting with the larger
buffer rejects with the smaller one. -/
theorem bbox_reject_mono {c p : List (ℝ × ℝ)} {t1 t2 : ℝ} (h : t1 ≤ t2)
    (hr : bbox_reject c p t2) : bbox_reject c p t1 := by
  have hd := tolerance_degrees_mono h
  unfold bbox_reject at hr ⊢
  rcases hr with h1 | h1 | h1 | h1
  · exact Or.inl (by linarith)
  · exact Or.inr (Or.inl (by linarith))
  · exact Or.inr (Or.inr (Or.inl (by linarith)))
  · exact Or.inr (Or.inr (Or.inr (by linarith)))

/-- Stage B acceptance is monotone in the tolerance. -/
theorem sample_found_nearby_mono {c : List (ℝ × ℝ)} {s : List (List (ℝ × ℝ))}
    {t1 t2 : ℝ} (h : t1 ≤ t2) (hf : sample_found_nearby c s t1) :
    sample_found_nearby c s t2 := by
  unfold sample_found_nearby at hf ⊢
  obtain ⟨idx, hidx, hlt, seg_idx, hseg, j, hj, hdist⟩ := hf
  exact ⟨idx, hidx, hlt, seg_idx, hseg, j, hj, le_trans hdist (by linarith)⟩

/-- Stage C edge classification is monotone in the tolerance: a larger
tolerance both widens the per-edge bounding-box pre-check and relaxes the
distance comparison. -/
theorem edge_on_trail_mono {c : List (ℝ × ℝ)} {s : List (List (ℝ × ℝ))}
    {t1 t2 : ℝ} {i : Nat} (h : t1 ≤ t2) (he : edge_on_trail c s t1 i) :
    edge_on_trail c s t2 i := by
  have hd := tolerance_degrees_mono h
  unfold edge_on_trail at he ⊢
  obtain ⟨seg, hseg, j, hj, hskip, hdist⟩ := he
  refine ⟨seg, hseg, j, hj, ?_, le_trans hdist h⟩
  push_neg at hskip ⊢
  obtain ⟨h1, h2, h3, h4⟩ := hskip
  exact ⟨by linarith, by linarith, by linarith, by linarith⟩

theorem stage_c_distance_nonneg (c : List (ℝ × ℝ)) (s : List (List (ℝ × ℝ))) (t : ℝ) :
    0 ≤ stage_c_distance c s t := by
  unfold stage_c_distance
  apply List.sum_nonneg
  intro x hx
  obtain ⟨i, _, rfl⟩ := List.mem_map.mp hx
  split_ifs
  · exact edge_length_nonneg c i
  · exact le_refl 0

theorem stage_c_distance_le_total (c : List (ℝ × ℝ)) (s : List (List (ℝ × ℝ))) (t : ℝ) :
    stage_c_distance c s t ≤ total_activity_distance c := by
  unfold stage_c_distance total_activity_distance
  apply List.sum_le_sum
  intro i _
  split_ifs
  · exact le_refl _
  · exact edge_length_nonneg c i

theorem stage_c_distance_mono (c : List (ℝ × ℝ)) (s : List (List (ℝ × ℝ)))
    {t1 t2 : ℝ} (h : t1 ≤ t2) : stage_c_distance c s t1 ≤ stage_c_distance c s t2 := by
  unfold stage_c_distance
  apply List.sum_le_sum
  intro i _
  by_cases he : edge_on_trail c s t1 i
  · rw [if_pos he, if_pos (edge_on_trail_mono h he)]
  · rw [if_neg he]
    split_ifs
    · exact edge_length_nonneg c i
    · exact le_refl 0

theorem calculate_fst_nonneg (c : List (ℝ × ℝ)) (s : List (List (ℝ × ℝ))) (t : ℝ) :
    0 ≤ (calculate_trail_intersection c s t).1 := by
  unfold calculate_trail_intersection
  split_ifs <;> first
    | exact le_refl 0
    | exact stage_c_distance_nonneg c s t

/-- C3, claim: for every list of activity coordinates, every trail network,
and every non-negative tolerance, `calculate_trail_intersection` returns
`(distanceOnTrail, ratio)` with `0 ≤ ratio ≤ 1` and
`distanceOnTrail ≤ totalDistance` (the sum of haversine lengths of
consecutive activity-point pairs); `ratio = 0` when `totalDistance = 0`, and
empty activity coordinates or an empty network yield `(0, 0)`. -/
theorem C3_intersection_bounds (activity_coords : List (ℝ × ℝ))
    (trail_segments : List (List (ℝ × ℝ))) (tolerance_meters : ℝ)
    (htol : 0 ≤ tolerance_meters) :
    0 ≤ (calculate_trail_intersection activity_coords trail_segments tolerance_meters).2 ∧
    (calculate_trail_intersection activity_coords trail_segments tolerance_meters).2 ≤ 1 ∧
    (calculate_trail_intersection activity_coords trail_segments tolerance_meters).1 ≤
      total_activity_distance activity_coords ∧
    (total_activity_distance activity_coords = 0 →
      (calculate_trail_intersection activity_coords trail_segments tolerance_meters).2 = 0) ∧
    ((activity_coords = [] ∨ trail_segments = []) →
      calculate_trail_intersection activity_coords trail_segments tolerance_meters = (0, 0)) := by
  have htot := total_activity_distance_nonneg activity_coords
  have hle := stage_c_distance_le_total activity_coords trail_segments tolerance_meters
  have hnn := stage_c_distance_nonneg activity_coords trail_segments tolerance_meters
  unfold calculate_trail_intersection
  by_cases h1 : activity_coords = [] ∨ trail_segments = []
  · rw [if_pos h1]
    exact ⟨le_refl 0, by norm_num, htot, fun _ => rfl, fun _ => rfl⟩
  · rw [if_neg h1]
    by_cases h2 : bbox_reject activity_coords
        (trail_segments.flatMap (fun segment => segment)) tolerance_meters
    · rw [if_pos h2]
      exact ⟨le_refl 0, by norm_num, htot, fun _ => rfl, fun hc => absurd hc h1⟩
    · rw [if_neg h2]
      by_cases h3 : ¬ sample_found_nearby activity_coords trail_segments tolerance_meters
      · rw [if_pos h3]
        exact ⟨le_refl 0, by norm_num, htot, fun _ => rfl, fun hc => absurd hc h1⟩
      · rw [if_neg h3]
        by_cases h4 : total_activity_distance activity_coords > 0
        · rw [if_pos h4]
          exact ⟨div_nonneg hnn (le_of_lt h4), (div_le_one h4).mpr hle, hle,
            fun h0 => absurd h4 (by rw [h0]; exact lt_irrefl 0), fun hc => absurd hc h1⟩
        · rw [if_neg h4]
          exact ⟨le_refl 0, by norm_num, hle, fun _ => rfl, fun hc => absurd hc h1⟩

/-- C3 witness. -/
theorem C3_intersection_bounds_witness :
    (0 : ℝ) ≤ 0 ∧
    (0 ≤ (calculate_trail_intersection [] [] 0).2 ∧
     (calculate_trail_intersection [] [] 0).2 ≤ 1 ∧
     (calculate_trail_intersection [] [] 0).1 ≤ total_activity_distance [] ∧
     (total_activity_distance [] = 0 → (calculate_trail_intersection [] [] 0).2 = 0) ∧
     (([] : List (ℝ × ℝ)) = [] ∨ ([] : List (List (ℝ × ℝ))) = [] →
       calculate_trail_intersection [] [] 0 = (0, 0))) :=
  ⟨le_refl 0, C3_intersection_bounds [] [] 0 (le_refl 0)⟩

/-- C4, claim: for fixed activity coordinates and trail network,
`distanceOnTrail` is monotonically non-decreasing in the tolerance. -/
theorem C4_distance_monotone_in_tolerance (activity_coords : List (ℝ × ℝ))
    (trail_segments : List (List (ℝ × ℝ))) (t1 t2 : ℝ) (h : t1 ≤ t2) :
    (calculate_trail_intersection activity_coords trail_segments t1).1 ≤
    (calculate_trail_intersection activity_coords trail_segments t2).1 := by
  have hnn2 := calculate_fst_nonneg activity_coords trail_segments t2
  unfold calculate_trail_intersection
  by_cases hempty : activity_coords = [] ∨ trail_segments = []
  · rw [if_pos hempty, if_pos hempty]
  · rw [if_neg hempty, if_neg hempty]
    by_cases hA1 : bbox_reject activity_coords
        (trail_segments.flatMap (fun segment => segment)) t1
    · -- Stage A rejects the smaller tolerance: left side is 0
      rw [if_pos hA1]
      unfold calculate_trail_intersection at hnn2
      rw [if_neg hempty] at hnn2
      exact hnn2
    · have hA2 : ¬ bbox_reject activity_coords
          (trail_segments.flatMap (fun segment => segment)) t2 :=
        fun hr => hA1 (bbox_reject_mono h hr)
      rw [if_neg hA1, if_neg hA2]
      by_cases hB1 : sample_found_nearby activity_coords trail_segments t1
      · have hB2 := sample_found_nearby_mono h hB1
        rw [if_neg (not_not_intro hB1), if_neg (not_not_intro hB2)]
        exact stage_c_distance_mono activity_coords trail_segments h
      · rw [if_pos hB1]
        unfold calculate_trail_intersection at hnn2
        rw [if_neg hempty, if_neg hA2] at hnn2
        exact hnn2

/-- C4 witness. -/
theorem C4_distance_monotone_in_tolerance_witness :
    (0 : ℝ) ≤ 1 ∧
    (calculate_trail_intersection [(0, 0)] [[(0, 0), (1, 1)]] 0).1 ≤
    (calculate_trail_intersection [(0, 0)] [[(0, 0), (1, 1)]] 1).1 :=
  ⟨by norm_num,
   C4_distance_monotone_in_tolerance [(0, 0)] [[(0, 0), (1, 1)]] 0 1 (by norm_num)⟩

/-! ## Lemmas about the PolylineCodec -/

theorem decodeChunk_snd_eq (cs : List Char) :
    ∀ (shift result : Nat), (decodeChunk cs shift result).map Prod.snd = dropChunkGroup cs := by
  induction cs with
  | nil => intro _ _; rfl
  | cons c tl ih =>
    intro shift result
    simp only [decodeChunk, dropChunkGroup]
    split_ifs with h
    · rfl
    · exact ih _ _

theorem decodeLoop_cons_eq (c : Char) (rest : List Char) (lat lng : Int) :
    decodeLoop (c :: rest) lat lng =
      match decodeChunk (c :: rest) 0 0 with
      | none => none
      | some (r1, cs1) =>
        match decodeChunk cs1 0 0 with
        | none => none
        | some (r2, cs2) =>
          (decodeLoop cs2 (lat + zigzagDelta r1) (lng + zigzagDelta r2)).map
            (fun tail => (lat + zigzagDelta r1, lng + zigzagDelta r2) :: tail) := by
  rw [decodeLoop]
  split
  · rename_i heq; rw [heq]
  · rename_i r1 cs1 heq
    rw [heq]
    dsimp only
    split
    · rename_i heq2; rw [heq2]
    · rename_i r2 cs2 heq2; rw [heq2]

theorem wellFormedPolyline_cons_eq (c : Char) (rest : List Char) :
    wellFormedPolyline (c :: rest) =
      match dropChunkGroup (c :: rest) with
      | none => false
      | some cs1 =>
        match dropChunkGroup cs1 with
        | none => false
        | some cs2 => wellFormedPolyline cs2 := by
  rw [wellFormedPolyline]
  split
  · rename_i heq; rw [heq]
  · rename_i cs1 heq
    rw [heq]
    dsimp only
    split
    · rename_i heq2; rw [heq2]
    · rename_i cs2 heq2; rw [heq2]

theorem decodeLoop_none_iff (cs : List Char) :
    ∀ (lat lng : Int), (decodeLoop cs lat lng = none ↔ wellFormedPolyline cs = false) := by
  induction cs using wellFormedPolyline.induct with
  | case1 =>
    intro lat lng
    simp [decodeLoop, wellFormedPolyline]
  | case2 c rest h1 =>
    intro lat lng
    have hd : (decodeChunk (c :: rest) 0 0).map Prod.snd = none := by
      rw [decodeChunk_snd_eq, h1]
    have hdc : decodeChunk (c :: rest) 0 0 = none := by
      cases hx : decodeChunk (c :: rest) 0 0 with
      | none => rfl
      | some p => rw [hx] at hd; simp at hd
    rw [decodeLoop_cons_eq, wellFormedPolyline_cons_eq]
    simp [hdc, h1]
  | case3 c rest cs1 h1 h2 =>
    intro lat lng
    have hd1 : (decodeChunk (c :: rest) 0 0).map Prod.snd = some cs1 := by
      rw [decodeChunk_snd_eq, h1]
    obtain ⟨p1, hp1, hp1s⟩ : ∃ p, decodeChunk (c :: rest) 0 0 = some p ∧ p.2 = cs1 := by
      cases hx : decodeChunk (c :: rest) 0 0 with
      | none => rw [hx] at hd1; simp at hd1
      | some p => rw [hx] at hd1; simp at hd1; exact ⟨p, rfl, hd1⟩
    have hd2 : (decodeChunk cs1 0 0).map Prod.snd = none := by
      rw [decodeChunk_snd_eq, h2]
    have hdc2 : decodeChunk cs1 0 0 = none := by
      cases hx : decodeChunk cs1 0 0 with
      | none => rfl
      | some p => rw [hx] at hd2; simp at hd2
    obtain ⟨r1, rest1⟩ := p1
    simp only at hp1s
    subst hp1s
    rw [decodeLoop_cons_eq, wellFormedPolyline_cons_eq]
    simp [hp1, h1, h2, hdc2]
  | case4 c rest cs1 h1 cs2 h2 ih =>
    intro lat lng
    have hd1 : (decodeChunk (c :: rest) 0 0).map Prod.snd = some cs1 := by
      rw [decodeChunk_snd_eq, h1]
    obtain ⟨p1, hp1, hp1s⟩ : ∃ p, decodeChunk (c :: rest) 0 0 = some p ∧ p.2 = cs1 := by
      cases hx : decodeChunk (c :: rest) 0 0 with
      | none => rw [hx] at hd1; simp at hd1
      | some p => rw [hx] at hd1; simp at hd1; exact ⟨p, rfl, hd1⟩
    have hd2 : (decodeChunk cs1 0 0).map Prod.snd = some cs2 := by
      rw [decodeChunk_snd_eq, h2]
    obtain ⟨p2, hp2, hp2s⟩ : ∃ p, decodeChunk cs1 0 0 = some p ∧ p.2 = cs2 := by
      cases hx : decodeChunk cs1 0 0 with
      | none => rw [hx] at hd2; simp at hd2
      | some p => rw [hx] at hd2; simp at hd2; exact ⟨p, rfl, hd2⟩
    obtain ⟨r1, rest1⟩ := p1
    obtain ⟨r2, rest2⟩ := p2
    simp only at hp1s hp2s
    subst hp1s; subst hp2s
    rw [decodeLoop_cons_eq, wellFormedPolyline_cons_eq]
    simp only [hp1, hp2, h1, h2, Option.map_eq_none']
    exact ih _ _

/-! ## Claims C7 and C8 -/

/-- C7 counterexample: the claim says decoding the empty string raises; in
the source the `while index < len(...)` loop is never entered and the empty
coordinate list is returned. -/
theorem C7_counterexample_empty_decodes : decode_polyline "" = some [] := by
  simp [decode_polyline, decodeLoop]

/-- C7 (amended): `decode_polyline` raises exactly on malformed input —
input that is not an even sequence of complete 5-bit chunk groups — while
the empty string is returned as the empty coordinate sequence without
raising. -/
theorem C7_decode_raises_iff_malformed :
    (∀ s : String, decode_polyline s = none ↔ wellFormedPolyline s.data = false) ∧
    decode_polyline "" = some [] := by
  constructor
  · intro s
    unfold decode_polyline
    rw [Option.map_eq_none']
    exact decodeLoop_none_iff s.data 0 0
  · simp [decode_polyline, decodeLoop]

/-- C8 counterexample: the main collection is absent (its per-collection
`try` failed) yet the spurs collection yields a segment, so the loader
returns that segment instead of raising. -/
theorem C8_counterexample_absent_main_tolerated :
    load_trail_data_from_s3 none (some ⟨[⟨.lineString [(1, 2), (3, 4)]⟩]⟩) =
      some [[(2, 1), (4, 3)]] := rfl

/-- C8 (amended): `load_trail_data_from_s3` raises (`RuntimeError`) exactly
when no trail segment was obtained from either collection; a single absent
or unreadable collection is tolerated whenever the other one contributes a
segment. -/
theorem C8_load_fails_iff_no_segments (main_geojson spurs_geojson : Option GeoJSON) :
    load_trail_data_from_s3 main_geojson spurs_geojson = none ↔
      (main_geojson.elim [] extractSegments) ++ (spurs_geojson.elim [] extractSegments)
        = [] := by
  unfold load_trail_data_from_s3
  dsimp only
  split_ifs with h
  · exact iff_of_true rfl (List.isEmpty_iff.mp h)
  · constructor
    · intro hx; exact absurd hx (by simp)
    · intro hx; exact absurd (by rw [hx]; rfl) h

/-! ## Lemmas about the leaderboard aggregate store -/

theorem aggLookup_append (l1 l2 : List (AggKey × AggRow)) (k : AggKey) :
    aggLookup (l1 ++ l2) k =
      match aggLookup l1 k with
      | some r => some r
      | none => aggLookup l2 k := by
  induction l1 with
  | nil => rfl
  | cons p rest ih =>
    simp only [List.cons_append, aggLookup]
    by_cases hp : p.1 = k
    · rw [if_pos hp, if_pos hp]
    · rw [if_neg hp, if_neg hp]
      exact ih

theorem aggLookup_upd_self (l : List (AggKey × AggRow)) (k : AggKey) (δ : ℝ) (now : Nat) :
    aggLookup (l.map fun p => if p.1 = k then (p.1, ⟨p.2.window, p.2.value + δ, now⟩) else p) k
      = (aggLookup l k).map fun r => (⟨r.window, r.value + δ, now⟩ : AggRow) := by
  induction l with
  | nil => rfl
  | cons p rest ih =>
    simp only [List.map]
    by_cases hp : p.1 = k
    · rw [if_pos hp]
      simp only [aggLookup, if_pos hp]
      rfl
    · rw [if_neg hp]
      simp only [aggLookup, if_neg hp]
      exact ih

theorem aggLookup_upd_ne (l : List (AggKey × AggRow)) (k k' : AggKey) (δ : ℝ) (now : Nat)
    (h : k' ≠ k) :
    aggLookup (l.map fun p => if p.1 = k then (p.1, ⟨p.2.window, p.2.value + δ, now⟩) else p) k'
      = aggLookup l k' := by
  induction l with
  | nil => rfl
  | cons p rest ih =>
    simp only [List.map]
    by_cases hp : p.1 = k
    · rw [if_pos hp]
      simp only [aggLookup]
      rw [if_neg (by rw [hp]; exact fun hx => h hx.symm), if_neg (by rw [hp]; exact fun hx => h hx.symm)]
      exact ih
    · rw [if_neg hp]
      by_cases hp' : p.1 = k'
      · simp only [aggLookup, if_pos hp']
      · simp only [aggLookup, if_neg hp']
        exact ih

theorem aggLookup_aggUpsert_self (agg : List (AggKey × AggRow)) (k : AggKey) (w : String)
    (δ : ℝ) (now : Nat) :
    (aggLookup (aggUpsert agg k w δ now) k).map AggRow.value =
      some ((aggLookup agg k).elim δ (fun r => r.value + δ)) := by
  unfold aggUpsert
  cases hl : aggLookup agg k with
  | none =>
    rw [aggLookup_append, hl]
    simp [aggLookup]
  | some r =>
    rw [aggLookup_upd_self, hl]
    rfl

theorem aggLookup_aggUpsert_ne (agg : List (AggKey × AggRow)) (k : AggKey) (w : String)
    (δ : ℝ) (now : Nat) (k' : AggKey) (h : k' ≠ k) :
    aggLookup (aggUpsert agg k w δ now) k' = aggLookup agg k' := by
  unfold aggUpsert
  cases hl : aggLookup agg k with
  | none =>
    rw [aggLookup_append]
    cases hl' : aggLookup agg k' with
    | none => simp [aggLookup, if_neg (fun hx : k = k' => h hx.symm)]
    | some r => rfl
  | some r => exact aggLookup_upd_ne agg k k' δ now h

theorem aggLookup_foldl_upsert_ne (items : List (String × AggKey))
    (agg : List (AggKey × AggRow)) (δ : ℝ) (now : Nat) (k : AggKey)
    (hk : ∀ p ∈ items, p.2 ≠ k) :
    aggLookup (items.foldl (fun a p => aggUpsert a p.2 p.1 δ now) agg) k = aggLookup agg k := by
  induction items generalizing agg with
  | nil => rfl
  | cons p rest ih =>
    simp only [List.foldl]
    rw [ih _ (fun q hq => hk q (List.mem_cons_of_mem _ hq)),
      aggLookup_aggUpsert_ne agg p.2 p.1 δ now k (hk p (List.mem_cons_self _ _)).symm]

theorem aggLookup_foldl_upsert_split (l1 l2 : List (String × AggKey)) (w : String)
    (agg : List (AggKey × AggRow)) (δ : ℝ) (now : Nat) (k : AggKey)
    (h1 : ∀ p ∈ l1, p.2 ≠ k) (h2 : ∀ p ∈ l2, p.2 ≠ k) :
    (aggLookup ((l1 ++ (w, k) :: l2).foldl (fun a p => aggUpsert a p.2 p.1 δ now) agg) k).map
        AggRow.value =
      some ((aggLookup agg k).elim δ (fun r => r.value + δ)) := by
  rw [List.foldl_append]
  simp only [List.foldl]
  rw [aggLookup_foldl_upsert_ne l2 _ _ _ _ h2, aggLookup_aggUpsert_self,
    aggLookup_foldl_upsert_ne l1 _ _ _ _ h1]

/-! ## Lemmas about dates and window keys -/

theorem week_ne_month_key (s t : String) : "week_" ++ s ≠ "month_" ++ t := by
  intro h
  have h2 := congrArg String.data h
  rw [String.data_append, String.data_append] at h2
  have hw : "week_".data = ['w', 'e', 'e', 'k', '_'] := rfl
  have hm : "month_".data = ['m', 'o', 'n', 't', 'h', '_'] := rfl
  rw [hw, hm] at h2
  simp at h2

theorem week_ne_year_key (s t : String) : "week_" ++ s ≠ "year_" ++ t := by
  intro h
  have h2 := congrArg String.data h
  rw [String.data_append, String.data_append] at h2
  have hw : "week_".data = ['w', 'e', 'e', 'k', '_'] := rfl
  have hy : "year_".data = ['y', 'e', 'a', 'r', '_'] := rfl
  rw [hw, hy] at h2
  simp at h2

theorem month_ne_year_key (s t : String) : "month_" ++ s ≠ "year_" ++ t := by
  intro h
  have h2 := congrArg String.data h
  rw [String.data_append, String.data_append] at h2
  have hm : "month_".data = ['m', 'o', 'n', 't', 'h', '_'] := rfl
  have hy : "year_".data = ['y', 'e', 'a', 'r', '_'] := rfl
  rw [hm, hy] at h2
  simp at h2

theorem python_fromisoformat_valid {s : String} {dt : PyDateTime}
    (h : python_fromisoformat s = some dt) :
    1 ≤ dt.year ∧ 1 ≤ dt.month ∧ dt.month ≤ 12 ∧ 1 ≤ dt.day := by
  unfold python_fromisoformat at h
  repeat any_goals split at h
  all_goals cases h
  all_goals dsimp only
  all_goals tauto

theorem daysFromCivil_ge_min {y m d : Int} (hy : 1 ≤ y) (hm1 : 1 ≤ m) (hm2 : m ≤ 12)
    (hd : 1 ≤ d) : -719162 ≤ daysFromCivil y m d := by
  unfold daysFromCivil
  dsimp only
  split_ifs with h1 h2 h3 <;> omega

theorem mondayOnOrBefore_is_monday (n : Int) : (mondayOnOrBefore n + 3) % 7 = 0 := by
  unfold mondayOnOrBefore; omega

theorem mondayOnOrBefore_le (n : Int) : mondayOnOrBefore n ≤ n := by
  unfold mondayOnOrBefore; omega

theorem mondayOnOrBefore_gt_sub_seven (n : Int) : n - mondayOnOrBefore n < 7 := by
  unfold mondayOnOrBefore; omega

/-- Structure of a successful `get_window_keys`: with `n` the day number of
the parsed date, the week key renders the date of `mondayOnOrBefore n`, and
the month and year keys render the parsed date itself. -/
theorem get_window_keys_eq {s : String} {dt : PyDateTime}
    (hparse : python_fromisoformat (String.mk (replaceZ s.data)) = some dt) :
    get_window_keys s = some
      ⟨"week_" ++ fmtDate
          (civilFromDays (mondayOnOrBefore (daysFromCivil dt.year dt.month dt.day))).1.toNat
          (civilFromDays (mondayOnOrBefore (daysFromCivil dt.year dt.month dt.day))).2.1.toNat
          (civilFromDays (mondayOnOrBefore (daysFromCivil dt.year dt.month dt.day))).2.2.toNat,
       "month_" ++ (padNum 4 dt.year ++ "-" ++ padNum 2 dt.month),
       "year_" ++ padNum 4 dt.year⟩ := by
  obtain ⟨hy, hm1, hm2, hd⟩ := python_fromisoformat_valid hparse
  have hn : -719162 ≤ daysFromCivil dt.year dt.month dt.day :=
    daysFromCivil_ge_min (by exact_mod_cast hy) (by exact_mod_cast hm1)
      (by exact_mod_cast hm2) (by exact_mod_cast hd)
  have hmin : pyDatetimeMinDays = -719162 := by decide
  unfold get_window_keys
  rw [hparse]
  dsimp only
  have hwd : pyWeekday dt = (daysFromCivil dt.year dt.month dt.day + 3) % 7 := rfl
  have hmonday : (if 0 < pyWeekday dt then
        daysFromCivil dt.year dt.month dt.day - pyWeekday dt
      else daysFromCivil dt.year dt.month dt.day) =
      mondayOnOrBefore (daysFromCivil dt.year dt.month dt.day) := by
    rw [hwd]; unfold mondayOnOrBefore; split_ifs with h0 <;> omega
  rw [hmonday, if_neg (by rw [hmin]; unfold mondayOnOrBefore; omega)]

/-! ## Lemmas about the orchestrator state -/

theorem get_window_keys_empty : get_window_keys "" = none := rfl

theorem update_metrics_users (id : Int) (d : ℝ) (ti : Int) (now : Nat) (st : DBState) :
    (update_activity_trail_metrics id d ti now st).users = st.users := rfl

theorem update_metrics_agg (id : Int) (d : ℝ) (ti : Int) (now : Nat) (st : DBState) :
    (update_activity_trail_metrics id d ti now st).agg = st.agg := rfl

theorem lookupActivity_upd_list (l : List (Int × ActivityRow)) (id : Int) (d : ℝ) (ti : Int)
    (now : Nat) (row : ActivityRow) (h : lookupActivity l id = some row) :
    lookupActivity (l.map fun p =>
        if p.1 = id then
          (p.1, { p.2 with
                  distance_on_trail := some d
                  time_on_trail := some ti
                  last_matched := some now })
        else p) id =
      some { row with
             distance_on_trail := some d
             time_on_trail := some ti
             last_matched := some now } := by
  induction l with
  | nil => cases h
  | cons p rest ih =>
    simp only [List.map]
    by_cases hp : p.1 = id
    · rw [if_pos hp]
      simp only [lookupActivity, if_pos hp] at h ⊢
      injection h with h'
      rw [h']
    · rw [if_neg hp]
      simp only [lookupActivity, if_neg hp] at h ⊢
      exact ih h

theorem lookupActivity_update_metrics (st : DBState) (id : Int) (d : ℝ) (ti : Int)
    (now : Nat) (row : ActivityRow) (h : lookupActivity st.activities id = some row) :
    lookupActivity (update_activity_trail_metrics id d ti now st).activities id =
      some { row with
             distance_on_trail := some d
             time_on_trail := some ti
             last_matched := some now } :=
  lookupActivity_upd_list st.activities id d ti now row h

theorem update_leaderboard_activities (aid athl : Int) (nd od : ℝ) (now : Nat)
    (st : DBState) :
    (update_leaderboard_after_trail_matching aid athl nd od now st).activities =
      st.activities := by
  unfold update_leaderboard_after_trail_matching
  split
  · rfl
  · rfl
  · split
    · rfl
    · dsimp only
      split_ifs <;> try rfl
      all_goals split <;> rfl

theorem update_leaderboard_users (aid athl : Int) (nd od : ℝ) (now : Nat) (st : DBState) :
    (update_leaderboard_after_trail_matching aid athl nd od now st).users = st.users := by
  unfold update_leaderboard_after_trail_matching
  split
  · rfl
  · rfl
  · split
    · rfl
    · dsimp only
      split_ifs <;> try rfl
      all_goals split <;> rfl

/-! ## Effect of the leaderboard updater on the aggregate store -/

theorem aggkey_ne (w1 b1 w2 b2 : String) (aid : Int) (h : w1 ≠ w2 ∨ b1 ≠ b2) :
    (⟨w1, "distance", b1, aid⟩ : AggKey) ≠ ⟨w2, "distance", b2, aid⟩ := by
  intro hx
  rcases h with h | h
  · exact h (congrArg AggKey.window_key hx)
  · exact h (congrArg AggKey.activity_type hx)

/-- Effect of `update_leaderboard_after_trail_matching` on the aggregate
store when nothing short-circuits: every (window key, bucket) row is
upserted once — created with value `delta` when absent, incremented by
`delta` otherwise. -/
theorem update_leaderboard_upserts (st : DBState) (activity_id athlete_id : Int)
    (newD oldD : ℝ) (now : Nat) (row : ActivityRow) (wk : WindowKeys)
    (huser : lookupUser st.users athlete_id = some true)
    (hact : lookupActivity st.activities activity_id = some row)
    (hwk : get_window_keys row.start_date_local = some wk)
    (hdelta : newD - oldD ≠ 0)
    (hne1 : wk.week ≠ wk.month) (hne2 : wk.week ≠ wk.year) (hne3 : wk.month ≠ wk.year) :
    ∀ w ∈ [wk.week, wk.month, wk.year],
      ∀ b ∈ ["all"] ++ (if row.type = "Run" ∨ row.type = "Walk" then ["foot"]
                        else if row.type = "Ride" then ["bike"] else []),
        (aggLookup (update_leaderboard_after_trail_matching activity_id athlete_id newD oldD
            now st).agg ⟨w, "distance", b, athlete_id⟩).map AggRow.value =
          some ((aggLookup st.agg ⟨w, "distance", b, athlete_id⟩).elim (newD - oldD)
            (fun r => r.value + (newD - oldD))) := by
  have hsd : ¬ row.start_date_local = "" := by
    intro h
    rw [h, get_window_keys_empty] at hwk
    cases hwk
  intro w hw b hb
  unfold update_leaderboard_after_trail_matching
  rw [huser]
  try dsimp only
  rw [hact]
  try dsimp only
  rw [if_neg hsd]
  try dsimp only
  rw [if_neg hdelta, hwk]
  try dsimp only
  simp only [List.mem_cons, List.mem_singleton, List.not_mem_nil, or_false] at hw
  by_cases hT1 : row.type = "Run" ∨ row.type = "Walk"
  · rw [if_pos hT1] at hb ⊢
    simp only [List.singleton_append, List.mem_cons, List.mem_singleton,
      List.not_mem_nil, or_false] at hb
    rcases hw with rfl | rfl | rfl <;> rcases hb with rfl | rfl
    · exact aggLookup_foldl_upsert_split []
        [("week", ⟨wk.week, "distance", "foot", athlete_id⟩),
         ("month", ⟨wk.month, "distance", "all", athlete_id⟩),
         ("month", ⟨wk.month, "distance", "foot", athlete_id⟩),
         ("year", ⟨wk.year, "distance", "all", athlete_id⟩),
         ("year", ⟨wk.year, "distance", "foot", athlete_id⟩)] _ st.agg _ now _
        (by intro p hp; fin_cases hp)
        (by intro p hp; fin_cases hp <;>
          first
            | exact aggkey_ne _ _ _ _ _ (Or.inr (by decide))
            | exact aggkey_ne _ _ _ _ _ (Or.inl hne1)
            | exact aggkey_ne _ _ _ _ _ (Or.inl hne1.symm)
            | exact aggkey_ne _ _ _ _ _ (Or.inl hne2)
            | exact aggkey_ne _ _ _ _ _ (Or.inl hne2.symm)
            | exact aggkey_ne _ _ _ _ _ (Or.inl hne3)
            | exact aggkey_ne _ _ _ _ _ (Or.inl hne3.symm))
    · exact aggLookup_foldl_upsert_split
        [("week", ⟨wk.week, "distance", "all", athlete_id⟩)]
        [("month", ⟨wk.month, "distance", "all", athlete_id⟩),
         ("month", ⟨wk.month, "distance", "foot", athlete_id⟩),
         ("year", ⟨wk.year, "distance", "all", athlete_id⟩),
         ("year", ⟨wk.year, "distance", "foot", athlete_id⟩)] _ st.agg _ now _
        (by intro p hp; fin_cases hp <;>
          first
            | exact aggkey_ne _ _ _ _ _ (Or.inr (by decide))
            | exact aggkey_ne _ _ _ _ _ (Or.inl hne1)
            | exact aggkey_ne _ _ _ _ _ (Or.inl hne1.symm)
            | exact aggkey_ne _ _ _ _ _ (Or.inl hne2)
            | exact aggkey_ne _ _ _ _ _ (Or.inl hne2.symm)
            | exact aggkey_ne _ _ _ _ _ (Or.inl hne3)
            | exact aggkey_ne _ _ _ _ _ (Or.inl hne3.symm))
        (by intro p hp; fin_cases hp <;>
          first
            | exact aggkey_ne _ _ _ _ _ (Or.inr (by decide))
            | exact aggkey_ne _ _ _ _ _ (Or.inl hne1)
            | exact aggkey_ne _ _ _ _ _ (Or.inl hne1.symm)
            | exact aggkey_ne _ _ _ _ _ (Or.inl hne2)
            | exact aggkey_ne _ _ _ _ _ (Or.inl hne2.symm)
            | exact aggkey_ne _ _ _ _ _ (Or.inl hne3)
            | exact aggkey_ne _ _ _ _ _ (Or.inl hne3.symm))
    · exact aggLookup_foldl_upsert_split
        [("week", ⟨wk.week, "distance", "all", athlete_id⟩),
         ("week", ⟨wk.week, "distance", "foot", athlete_id⟩)]
        [("month", ⟨wk.month, "distance", "foot", athlete_id⟩),
         ("year", ⟨wk.year, "distance", "all", athlete_id⟩),
         ("year", ⟨wk.year, "distance", "foot", athlete_id⟩)] _ st.agg _ now _
        (by intro p hp; fin_cases hp <;>
          first
            | exact aggkey_ne _ _ _ _ _ (Or.inr (by decide))
            | exact aggkey_ne _ _ _ _ _ (Or.inl hne1)
            | exact aggkey_ne _ _ _ _ _ (Or.inl hne1.symm)
            | exact aggkey_ne _ _ _ _ _ (Or.inl hne2)
            | exact aggkey_ne _ _ _ _ _ (Or.inl hne2.symm)
            | exact aggkey_ne _ _ _ _ _ (Or.inl hne3)
            | exact aggkey_ne _ _ _ _ _ (Or.inl hne3.symm))
        (by intro p hp; fin_cases hp <;>
          first
            | exact aggkey_ne _ _ _ _ _ (Or.inr (by decide))
            | exact aggkey_ne _ _ _ _ _ (Or.inl hne1)
            | exact aggkey_ne _ _ _ _ _ (Or.inl hne1.symm)
            | exact aggkey_ne _ _ _ _ _ (Or.inl hne2)
            | exact aggkey_ne _ _ _ _ _ (Or.inl hne2.symm)
            | exact aggkey_ne _ _ _ _ _ (Or.inl hne3)
            | exact aggkey_ne _ _ _ _ _ (Or.inl hne3.symm))
    · exact aggLookup_foldl_upsert_split
        [("week", ⟨wk.week, "distance", "all", athlete_id⟩),
         ("week", ⟨wk.week, "distance", "foot", athlete_id⟩),
         ("month", ⟨wk.month, "distance", "all", athlete_id⟩)]
        [("year", ⟨wk.year, "distance", "all", athlete_id⟩),
         ("year", ⟨wk.year, "distance", "foot", athlete_id⟩)] _ st.agg _ now _
        (by intro p hp; fin_cases hp <;>
          first
            | exact aggkey_ne _ _ _ _ _ (Or.inr (by decide))
            | exact aggkey_ne _ _ _ _ _ (Or.inl hne1)
            | exact aggkey_ne _ _ _ _ _ (Or.inl hne1.symm)
            | exact aggkey_ne _ _ _ _ _ (Or.inl hne2)
            | exact aggkey_ne _ _ _ _ _ (Or.inl hne2.symm)
            | exact aggkey_ne _ _ _ _ _ (Or.inl hne3)
            | exact aggkey_ne _ _ _ _ _ (Or.inl hne3.symm))
        (by intro p hp; fin_cases hp <;>
          first
            | exact aggkey_ne _ _ _ _ _ (Or.inr (by decide))
            | exact aggkey_ne _ _ _ _ _ (Or.inl hne1)
            | exact aggkey_ne _ _ _ _ _ (Or.inl hne1.symm)
            | exact aggkey_ne _ _ _ _ _ (Or.inl hne2)
            | exact aggkey_ne _ _ _ _ _ (Or.inl hne2.symm)
            | exact aggkey_ne _ _ _ _ _ (Or.inl hne3)
            | exact aggkey_ne _ _ _ _ _ (Or.inl hne3.symm))
    · exact aggLookup_foldl_upsert_split
        [("week", ⟨wk.week, "distance", "all", athlete_id⟩),
         ("week", ⟨wk.week, "distance", "foot", athlete_id⟩),
         ("month", ⟨wk.month, "distance", "all", athlete_id⟩),
         ("month", ⟨wk.month, "distance", "foot", athlete_id⟩)]
        [("year", ⟨wk.year, "distance", "foot", athlete_id⟩)] _ st.agg _ now _
        (by intro p hp; fin_cases hp <;>
          first
            | exact aggkey_ne _ _ _ _ _ (Or.inr (by decide))
            | exact aggkey_ne _ _ _ _ _ (Or.inl hne1)
            | exact aggkey_ne _ _ _ _ _ (Or.inl hne1.symm)
            | exact aggkey_ne _ _ _ _ _ (Or.inl hne2)
            | exact aggkey_ne _ _ _ _ _ (Or.inl hne2.symm)
            | exact aggkey_ne _ _ _ _ _ (Or.inl hne3)
            | exact aggkey_ne _ _ _ _ _ (Or.inl hne3.symm))
        (by intro p hp; fin_cases hp <;>
          first
            | exact aggkey_ne _ _ _ _ _ (Or.inr (by decide))
            | exact aggkey_ne _ _ _ _ _ (Or.inl hne1)
            | exact aggkey_ne _ _ _ _ _ (Or.inl hne1.symm)
            | exact aggkey_ne _ _ _ _ _ (Or.inl hne2)
            | exact aggkey_ne _ _ _ _ _ (Or.inl hne2.symm)
            | exact aggkey_ne _ _ _ _ _ (Or.inl hne3)
            | exact aggkey_ne _ _ _ _ _ (Or.inl hne3.symm))
    · exact aggLookup_foldl_upsert_split
        [("week", ⟨wk.week, "distance", "all", athlete_id⟩),
         ("week", ⟨wk.week, "distance", "foot", athlete_id⟩),
         ("month", ⟨wk.month, "distance", "all", athlete_id⟩),
         ("month", ⟨wk.month, "distance", "foot", athlete_id⟩),
         ("year", ⟨wk.year, "distance", "all", athlete_id⟩)] [] _ st.agg _ now _
        (by intro p hp; fin_cases hp <;>
          first
            | exact aggkey_ne _ _ _ _ _ (Or.inr (by decide))
            | exact aggkey_ne _ _ _ _ _ (Or.inl hne1)
            | exact aggkey_ne _ _ _ _ _ (Or.inl hne1.symm)
            | exact aggkey_ne _ _ _ _ _ (Or.inl hne2)
            | exact aggkey_ne _ _ _ _ _ (Or.inl hne2.symm)
            | exact aggkey_ne _ _ _ _ _ (Or.inl hne3)
            | exact aggkey_ne _ _ _ _ _ (Or.inl hne3.symm))
        (by intro p hp; fin_cases hp)
  · by_cases hT2 : row.type = "Ride"
    · rw [if_neg hT1, if_pos hT2] at hb ⊢
      simp only [List.singleton_append, List.mem_cons, List.mem_singleton,
        List.not_mem_nil, or_false] at hb
      rcases hw with rfl | rfl | rfl <;> rcases hb with rfl | rfl
      · exact aggLookup_foldl_upsert_split []
          [("week", ⟨wk.week, "distance", "bike", athlete_id⟩),
           ("month", ⟨wk.month, "distance", "all", athlete_id⟩),
           ("month", ⟨wk.month, "distance", "bike", athlete_id⟩),
           ("year", ⟨wk.year, "distance", "all", athlete_id⟩),
           ("year", ⟨wk.year, "distance", "bike", athlete_id⟩)] _ st.agg _ now _
          (by intro p hp; fin_cases hp)
          (by intro p hp; fin_cases hp <;>
            first
              | exact aggkey_ne _ _ _ _ _ (Or.inr (by decide))
              | exact aggkey_ne _ _ _ _ _ (Or.inl hne1)
              | exact aggkey_ne _ _ _ _ _ (Or.inl hne1.symm)
              | exact aggkey_ne _ _ _ _ _ (Or.inl hne2)
              | exact aggkey_ne _ _ _ _ _ (Or.inl hne2.symm)
              | exact aggkey_ne _ _ _ _ _ (Or.inl hne3)
              | exact aggkey_ne _ _ _ _ _ (Or.inl hne3.symm))
      · exact aggLookup_foldl_upsert_split
          [("week", ⟨wk.week, "distance", "all", athlete_id⟩)]
          [("month", ⟨wk.month, "distance", "all", athlete_id⟩),
           ("month", ⟨wk.month, "distance", "bike", athlete_id⟩),
           ("year", ⟨wk.year, "distance", "all", athlete_id⟩),
           ("year", ⟨wk.year, "distance", "bike", athlete_id⟩)] _ st.agg _ now _
          (by intro p hp; fin_cases hp <;>
            first
              | exact aggkey_ne _ _ _ _ _ (Or.inr (by decide))
              | exact aggkey_ne _ _ _ _ _ (Or.inl hne1)
              | exact aggkey_ne _ _ _ _ _ (Or.inl hne1.symm)
              | exact aggkey_ne _ _ _ _ _ (Or.inl hne2)
              | exact aggkey_ne _ _ _ _ _ (Or.inl hne2.symm)
              | exact aggkey_ne _ _ _ _ _ (Or.inl hne3)
              | exact aggkey_ne _ _ _ _ _ (Or.inl hne3.symm))
          (by intro p hp; fin_cases hp <;>
            first
              | exact aggkey_ne _ _ _ _ _ (Or.inr (by decide))
              | exact aggkey_ne _ _ _ _ _ (Or.inl hne1)
              | exact aggkey_ne _ _ _ _ _ (Or.inl hne1.symm)
              | exact aggkey_ne _ _ _ _ _ (Or.inl hne2)
              | exact aggkey_ne _ _ _ _ _ (Or.inl hne2.symm)
              | exact aggkey_ne _ _ _ _ _ (Or.inl hne3)
              | exact aggkey_ne _ _ _ _ _ (Or.inl hne3.symm))
      · exact aggLookup_foldl_upsert_split
          [("week", ⟨wk.week, "distance", "all", athlete_id⟩),
           ("week", ⟨wk.week, "distance", "bike", athlete_id⟩)]
          [("month", ⟨wk.month, "distance", "bike", athlete_id⟩),
           ("year", ⟨wk.year, "distance", "all", athlete_id⟩),
           ("year", ⟨wk.year, "distance", "bike", athlete_id⟩)] _ st.agg _ now _
          (by intro p hp; fin_cases hp <;>
            first
              | exact aggkey_ne _ _ _ _ _ (Or.inr (by decide))
              | exact aggkey_ne _ _ _ _ _ (Or.inl hne1)
              | exact aggkey_ne _ _ _ _ _ (Or.inl hne1.symm)
              | exact aggkey_ne _ _ _ _ _ (Or.inl hne2)
              | exact aggkey_ne _ _ _ _ _ (Or.inl hne2.symm)
              | exact aggkey_ne _ _ _ _ _ (Or.inl hne3)
              | exact aggkey_ne _ _ _ _ _ (Or.inl hne3.symm))
          (by intro p hp; fin_cases hp <;>
            first
              | exact aggkey_ne _ _ _ _ _ (Or.inr (by decide))
              | exact aggkey_ne _ _ _ _ _ (Or.inl hne1)
              | exact aggkey_ne _ _ _ _ _ (Or.inl hne1.symm)
              | exact aggkey_ne _ _ _ _ _ (Or.inl hne2)
              | exact aggkey_ne _ _ _ _ _ (Or.inl hne2.symm)
              | exact aggkey_ne _ _ _ _ _ (Or.inl hne3)
              | exact aggkey_ne _ _ _ _ _ (Or.inl hne3.symm))
      · exact aggLookup_foldl_upsert_split
          [("week", ⟨wk.week, "distance", "all", athlete_id⟩),
           ("week", ⟨wk.week, "distance", "bike", athlete_id⟩),
           ("month", ⟨wk.month, "distance", "all", athlete_id⟩)]
          [("year", ⟨wk.year, "distance", "all", athlete_id⟩),
           ("year", ⟨wk.year, "distance", "bike", athlete_id⟩)] _ st.agg _ now _
          (by intro p hp; fin_cases hp <;>
            first
              | exact aggkey_ne _ _ _ _ _ (Or.inr (by decide))
              | exact aggkey_ne _ _ _ _ _ (Or.inl hne1)
              | exact aggkey_ne _ _ _ _ _ (Or.inl hne1.symm)
              | exact aggkey_ne _ _ _ _ _ (Or.inl hne2)
              | exact aggkey_ne _ _ _ _ _ (Or.inl hne2.symm)
              | exact aggkey_ne _ _ _ _ _ (Or.inl hne3)
              | exact aggkey_ne _ _ _ _ _ (Or.inl hne3.symm))
          (by intro p hp; fin_cases hp <;>
            first
              | exact aggkey_ne _ _ _ _ _ (Or.inr (by decide))
              | exact aggkey_ne _ _ _ _ _ (Or.inl hne1)
              | exact aggkey_ne _ _ _ _ _ (Or.inl hne1.symm)
              | exact aggkey_ne _ _ _ _ _ (Or.inl hne2)
              | exact aggkey_ne _ _ _ _ _ (Or.inl hne2.symm)
              | exact aggkey_ne _ _ _ _ _ (Or.inl hne3)
              | exact aggkey_ne _ _ _ _ _ (Or.inl hne3.symm))
      · exact aggLookup_foldl_upsert_split
          [("week", ⟨wk.week, "distance", "all", athlete_id⟩),
           ("week", ⟨wk.week, "distance", "bike", athlete_id⟩),
           ("month", ⟨wk.month, "distance", "all", athlete_id⟩),
           ("month", ⟨wk.month, "distance", "bike", athlete_id⟩)]
          [("year", ⟨wk.year, "distance", "bike", athlete_id⟩)] _ st.agg _ now _
          (by intro p hp; fin_cases hp <;>
            first
              | exact aggkey_ne _ _ _ _ _ (Or.inr (by decide))
              | exact aggkey_ne _ _ _ _ _ (Or.inl hne1)
              | exact aggkey_ne _ _ _ _ _ (Or.inl hne1.symm)
              | exact aggkey_ne _ _ _ _ _ (Or.inl hne2)
              | exact aggkey_ne _ _ _ _ _ (Or.inl hne2.symm)
              | exact aggkey_ne _ _ _ _ _ (Or.inl hne3)
              | exact aggkey_ne _ _ _ _ _ (Or.inl hne3.symm))
          (by intro p hp; fin_cases hp <;>
            first
              | exact aggkey_ne _ _ _ _ _ (Or.inr (by decide))
              | exact aggkey_ne _ _ _ _ _ (Or.inl hne1)
              | exact aggkey_ne _ _ _ _ _ (Or.inl hne1.symm)
              | exact aggkey_ne _ _ _ _ _ (Or.inl hne2)
              | exact aggkey_ne _ _ _ _ _ (Or.inl hne2.symm)
              | exact aggkey_ne _ _ _ _ _ (Or.inl hne3)
              | exact aggkey_ne _ _ _ _ _ (Or.inl hne3.symm))
      · exact aggLookup_foldl_upsert_split
          [("week", ⟨wk.week, "distance", "all", athlete_id⟩),
           ("week", ⟨wk.week, "distance", "bike", athlete_id⟩),
           ("month", ⟨wk.month, "distance", "all", athlete_id⟩),
           ("month", ⟨wk.month, "distance", "bike", athlete_id⟩),
           ("year", ⟨wk.year, "distance", "all", athlete_id⟩)] [] _ st.agg _ now _
          (by intro p hp; fin_cases hp <;>
            first
              | exact aggkey_ne _ _ _ _ _ (Or.inr (by decide))
              | exact aggkey_ne _ _ _ _ _ (Or.inl hne1)
              | exact aggkey_ne _ _ _ _ _ (Or.inl hne1.symm)
              | exact aggkey_ne _ _ _ _ _ (Or.inl hne2)
              | exact aggkey_ne _ _ _ _ _ (Or.inl hne2.symm)
              | exact aggkey_ne _ _ _ _ _ (Or.inl hne3)
              | exact aggkey_ne _ _ _ _ _ (Or.inl hne3.symm))
          (by intro p hp; fin_cases hp)
    · rw [if_neg hT1, if_neg hT2] at hb ⊢
      simp only [List.append_nil, List.mem_singleton] at hb
      subst hb
      rcases hw with rfl | rfl | rfl
      · exact aggLookup_foldl_upsert_split []
          [("month", ⟨wk.month, "distance", "all", athlete_id⟩),
           ("year", ⟨wk.year, "distance", "all", athlete_id⟩)] _ st.agg _ now _
          (by intro p hp; fin_cases hp)
          (by intro p hp; fin_cases hp <;>
            first
              | exact aggkey_ne _ _ _ _ _ (Or.inl hne1.symm)
              | exact aggkey_ne _ _ _ _ _ (Or.inl hne2.symm))
      · exact aggLookup_foldl_upsert_split
          [("week", ⟨wk.week, "distance", "all", athlete_id⟩)]
          [("year", ⟨wk.year, "distance", "all", athlete_id⟩)] _ st.agg _ now _
          (by intro p hp; fin_cases hp <;> exact aggkey_ne _ _ _ _ _ (Or.inl hne1))
          (by intro p hp; fin_cases hp <;> exact aggkey_ne _ _ _ _ _ (Or.inl hne3.symm))
      · exact aggLookup_foldl_upsert_split
          [("week", ⟨wk.week, "distance", "all", athlete_id⟩),
           ("month", ⟨wk.month, "distance", "all", athlete_id⟩)] [] _ st.agg _ now _
          (by intro p hp; fin_cases hp <;>
            first
              | exact aggkey_ne _ _ _ _ _ (Or.inl hne2)
              | exact aggkey_ne _ _ _ _ _ (Or.inl hne3))
          (by intro p hp; fin_cases hp)

/-! ## Claims C5 and C6 -/

theorem calculate_snd_nonneg (c : List (ℝ × ℝ)) (s : List (List (ℝ × ℝ))) (t : ℝ) :
    0 ≤ (calculate_trail_intersection c s t).2 := by
  unfold calculate_trail_intersection
  by_cases h1 : c = [] ∨ s = []
  · rw [if_pos h1]
  · rw [if_neg h1]
    by_cases h2 : bbox_reject c (s.flatMap (fun segment => segment)) t
    · rw [if_pos h2]
    · rw [if_neg h2]
      by_cases h3 : ¬ sample_found_nearby c s t
      · rw [if_pos h3]
      · rw [if_neg h3]
        by_cases h4 : total_activity_distance c > 0
        · rw [if_pos h4]
          exact div_nonneg (stage_c_distance_nonneg c s t) (le_of_lt h4)
        · rw [if_neg h4]

/-- C6, claim: when the athlete has opted out of leaderboard visibility (or
has no preference row), or the distance delta is zero, the updater leaves the
aggregate store unchanged. -/
theorem C6_optout_or_zero_delta_is_noop (st : DBState) (activity_id athlete_id : Int)
    (newD oldD : ℝ) (now : Nat)
    (h : lookupUser st.users athlete_id ≠ some true ∨ newD = oldD) :
    (update_leaderboard_after_trail_matching activity_id athlete_id newD oldD now st).agg
      = st.agg := by
  unfold update_leaderboard_after_trail_matching
  cases hu : lookupUser st.users athlete_id with
  | none => rfl
  | some b =>
    cases b with
    | false => rfl
    | true =>
      rcases h with h | h
      · exact absurd hu h
      · cases ha : lookupActivity st.activities activity_id with
        | none => rfl
        | some row =>
          dsimp only
          by_cases hsd : row.start_date_local = ""
          · rw [if_pos hsd]
          · rw [if_neg hsd, if_pos (sub_eq_zero.mpr h)]

/-- C6 witness. -/
theorem C6_optout_or_zero_delta_is_noop_witness :
    (lookupUser (⟨[], [(7, false)], []⟩ : DBState).users 7 ≠ some true ∨ (100 : ℝ) = 50) ∧
    (update_leaderboard_after_trail_matching 1 7 100 50 5 ⟨[], [(7, false)], []⟩).agg =
      (⟨[], [(7, false)], []⟩ : DBState).agg :=
  ⟨Or.inl (by decide), C6_optout_or_zero_delta_is_noop ⟨[], [(7, false)], []⟩ 1 7 100 50 5
    (Or.inl (by decide))⟩

/-- C5, claim: for an opted-in athlete and a nonzero delta, the window keys
derived from `startDateLocal` are `week_<ISO date of the Monday on or before
the date>`, `month_YYYY-MM` and `year_YYYY`; the buckets are `all`, plus
`foot` for Run/Walk and `bike` for Ride; and each of the 3 windows crossed
with those buckets (3 to 6 rows, always including `all`) is upserted:
created with value = delta when absent, incremented by delta otherwise. -/
theorem C5_window_keys_buckets_and_upserts (st : DBState) (activity_id athlete_id : Int)
    (newD oldD : ℝ) (now : Nat) (row : ActivityRow) (dt : PyDateTime)
    (huser : lookupUser st.users athlete_id = some true)
    (hact : lookupActivity st.activities activity_id = some row)
    (hparse : python_fromisoformat (String.mk (replaceZ row.start_date_local.data)) = some dt)
    (hdelta : newD - oldD ≠ 0) :
    let n := daysFromCivil dt.year dt.month dt.day
    let mweek := "week_" ++ fmtDate (civilFromDays (mondayOnOrBefore n)).1.toNat
      (civilFromDays (mondayOnOrBefore n)).2.1.toNat (civilFromDays (mondayOnOrBefore n)).2.2.toNat
    let mmonth := "month_" ++ (padNum 4 dt.year ++ "-" ++ padNum 2 dt.month)
    let myear := "year_" ++ padNum 4 dt.year
    let buckets := ["all"] ++ (if row.type = "Run" ∨ row.type = "Walk" then ["foot"]
      else if row.type = "Ride" then ["bike"] else [])
    get_window_keys row.start_date_local = some ⟨mweek, mmonth, myear⟩ ∧
    (mondayOnOrBefore n + 3) % 7 = 0 ∧
    mondayOnOrBefore n ≤ n ∧
    n - mondayOnOrBefore n < 7 ∧
    "all" ∈ buckets ∧
    buckets.length ≤ 2 ∧
    ∀ w ∈ [mweek, mmonth, myear], ∀ b ∈ buckets,
      (aggLookup (update_leaderboard_after_trail_matching activity_id athlete_id newD oldD
          now st).agg ⟨w, "distance", b, athlete_id⟩).map AggRow.value =
        some ((aggLookup st.agg ⟨w, "distance", b, athlete_id⟩).elim (newD - oldD)
          (fun r => r.value + (newD - oldD))) := by
  intro n mweek mmonth myear buckets
  have hwkeq : get_window_keys row.start_date_local = some ⟨mweek, mmonth, myear⟩ :=
    get_window_keys_eq hparse
  refine ⟨hwkeq, mondayOnOrBefore_is_monday n, mondayOnOrBefore_le n,
    mondayOnOrBefore_gt_sub_seven n, List.mem_append_left _ (List.mem_singleton.mpr rfl),
    ?_, ?_⟩
  · show (["all"] ++ (if row.type = "Run" ∨ row.type = "Walk" then ["foot"]
      else if row.type = "Ride" then ["bike"] else [])).length ≤ 2
    split_ifs <;> decide
  · exact update_leaderboard_upserts st activity_id athlete_id newD oldD now row
      ⟨mweek, mmonth, myear⟩ huser hact hwkeq hdelta
      (week_ne_month_key _ _) (week_ne_year_key _ _) (month_ne_year_key _ _)
/-- Concrete fixture for the C5 witness: athlete 7 opted in, activity 1 is a
Run on Sunday 2026-02-15 whose distance-on-trail moves from 100 to 150. -/
noncomputable def rowC5 : ActivityRow :=
  ⟨7, 11, "abc", 600, 1000, some 100, some 80, none, "2026-02-15T10:30:00Z", "Run"⟩

noncomputable def stC5 : DBState := ⟨[(1, rowC5)], [(7, true)], []⟩

/-- C5 witness: the theorem applied at the fixture; the parse hypothesis and
the nonzero delta are discharged concretely. -/
theorem C5_window_keys_buckets_and_upserts_witness :
    (lookupUser stC5.users 7 = some true ∧
     lookupActivity stC5.activities 1 = some rowC5 ∧
     python_fromisoformat (String.mk (replaceZ rowC5.start_date_local.data)) =
       some ⟨2026, 2, 15, 10, 30, 0⟩ ∧
     (150 : ℝ) - 100 ≠ 0) ∧
    (let n := daysFromCivil (2026 : Nat) (2 : Nat) (15 : Nat)
     let mweek := "week_" ++ fmtDate (civilFromDays (mondayOnOrBefore n)).1.toNat
       (civilFromDays (mondayOnOrBefore n)).2.1.toNat (civilFromDays (mondayOnOrBefore n)).2.2.toNat
     let mmonth := "month_" ++ (padNum 4 2026 ++ "-" ++ padNum 2 2)
     let myear := "year_" ++ padNum 4 2026
     let buckets := ["all"] ++ (if rowC5.type = "Run" ∨ rowC5.type = "Walk" then ["foot"]
       else if rowC5.type = "Ride" then ["bike"] else [])
     get_window_keys rowC5.start_date_local = some ⟨mweek, mmonth, myear⟩ ∧
     (mondayOnOrBefore n + 3) % 7 = 0 ∧
     mondayOnOrBefore n ≤ n ∧
     n - mondayOnOrBefore n < 7 ∧
     "all" ∈ buckets ∧
     buckets.length ≤ 2 ∧
     ∀ w ∈ [mweek, mmonth, myear], ∀ b ∈ buckets,
       (aggLookup (update_leaderboard_after_trail_matching 1 7 150 100 5 stC5).agg
           ⟨w, "distance", b, 7⟩).map AggRow.value =
         some ((aggLookup stC5.agg ⟨w, "distance", b, 7⟩).elim ((150 : ℝ) - 100)
           (fun r => r.value + ((150 : ℝ) - 100)))) :=
  ⟨⟨rfl, rfl, by decide, by norm_num⟩,
   C5_window_keys_buckets_and_upserts stC5 1 7 150 100 5 rowC5 ⟨2026, 2, 15, 10, 30, 0⟩
     rfl rfl (by decide) (by norm_num)⟩
/-! ## Claim C9 -/

/-- C9, claim: for a non-negative `movingTimeSeconds` and the ratio produced
by the matcher, the returned and persisted `timeOnTrailSeconds` is
`⌊movingTimeSeconds × ratio⌋` (Python `int()` truncates; the product is
non-negative because the ratio is). -/
theorem C9_time_on_trail_is_floor (st : DBState) (activity_id : Int)
    (main_geojson spurs_geojson : Option GeoJSON) (now : Nat) (row : ActivityRow)
    (coords : List (ℝ × ℝ)) (trail_segments : List (List (ℝ × ℝ)))
    (hact : lookupActivity st.activities activity_id = some row)
    (hath : row.athlete_id ≠ 0)
    (hpoly : row.polyline ≠ "")
    (hdec : decode_polyline row.polyline = some coords)
    (hload : load_trail_data_from_s3 main_geojson spurs_geojson = some trail_segments)
    (hmt : 0 ≤ row.moving_time) :
    (match_activity activity_id main_geojson spurs_geojson now st).2.time_on_trail =
      ⌊(row.moving_time : ℝ) *
        (calculate_trail_intersection coords trail_segments TRAIL_TOLERANCE_METERS).2⌋ ∧
    lookupActivity
        (match_activity activity_id main_geojson spurs_geojson now st).1.activities
        activity_id =
      some { row with
             distance_on_trail :=
               some (calculate_trail_intersection coords trail_segments
                 TRAIL_TOLERANCE_METERS).1
             time_on_trail :=
               some ⌊(row.moving_time : ℝ) *
                 (calculate_trail_intersection coords trail_segments
                   TRAIL_TOLERANCE_METERS).2⌋
             last_matched := some now } := by
  have hratio : 0 ≤ (calculate_trail_intersection coords trail_segments
      TRAIL_TOLERANCE_METERS).2 :=
    calculate_snd_nonneg coords trail_segments TRAIL_TOLERANCE_METERS
  have hprod : 0 ≤ (row.moving_time : ℝ) *
      (calculate_trail_intersection coords trail_segments TRAIL_TOLERANCE_METERS).2 :=
    mul_nonneg (by exact_mod_cast hmt) hratio
  have hpyInt : pyInt ((row.moving_time : ℝ) *
      (calculate_trail_intersection coords trail_segments TRAIL_TOLERANCE_METERS).2) =
      ⌊(row.moving_time : ℝ) *
        (calculate_trail_intersection coords trail_segments TRAIL_TOLERANCE_METERS).2⌋ := by
    unfold pyInt
    rw [if_pos hprod]
  unfold match_activity match_activity_body
  rw [hact]
  dsimp only
  rw [if_neg hath, if_neg hpoly, hdec]
  dsimp only
  rw [hload]
  dsimp only
  rw [hpyInt]
  refine ⟨rfl, ?_⟩
  rw [update_leaderboard_activities]
  exact lookupActivity_update_metrics st activity_id _ _ now row hact
/-- Fixture for the C9 witness: polyline `"??"` decodes to the single point
(0, 0); one 2-point trail segment is loaded from the spurs collection. -/
noncomputable def rowC9 : ActivityRow :=
  ⟨7, 11, "??", 600, 1000, none, none, none, "2026-02-15T10:30:00Z", "Run"⟩

noncomputable def stC9 : DBState := ⟨[(1, rowC9)], [(7, true)], []⟩

noncomputable def gC9 : GeoJSON := ⟨[⟨.lineString [(1, 2), (3, 4)]⟩]⟩

/-- C9 witness. -/
theorem C9_time_on_trail_is_floor_witness :
    (lookupActivity stC9.activities 1 = some rowC9 ∧
     rowC9.athlete_id ≠ 0 ∧
     rowC9.polyline ≠ "" ∧
     decode_polyline rowC9.polyline = some [(0, 0)] ∧
     load_trail_data_from_s3 none (some gC9) = some [[(2, 1), (4, 3)]] ∧
     0 ≤ rowC9.moving_time) ∧
    ((match_activity 1 none (some gC9) 5 stC9).2.time_on_trail =
      ⌊(rowC9.moving_time : ℝ) *
        (calculate_trail_intersection [(0, 0)] [[(2, 1), (4, 3)]]
          TRAIL_TOLERANCE_METERS).2⌋ ∧
     lookupActivity (match_activity 1 none (some gC9) 5 stC9).1.activities 1 =
      some { rowC9 with
             distance_on_trail :=
               some (calculate_trail_intersection [(0, 0)] [[(2, 1), (4, 3)]]
                 TRAIL_TOLERANCE_METERS).1
             time_on_trail :=
               some ⌊(rowC9.moving_time : ℝ) *
                 (calculate_trail_intersection [(0, 0)] [[(2, 1), (4, 3)]]
                   TRAIL_TOLERANCE_METERS).2⌋
             last_matched := some 5 }) :=
  ⟨⟨rfl, by decide, by decide,
    by show decode_polyline "??" = some [(0, 0)]
       simp [decode_polyline, decodeLoop, decodeChunk, zigzagDelta],
    rfl, by decide⟩,
   C9_time_on_trail_is_floor stC9 1 none (some gC9) 5 rowC9 [(0, 0)] [[(2, 1), (4, 3)]]
     rfl (by decide) (by decide)
     (by show decode_polyline "??" = some [(0, 0)]
         simp [decode_polyline, decodeLoop, decodeChunk, zigzagDelta])
     rfl (by decide)⟩

/-- C10, claim: an empty-polyline activity whose stored previous
`distanceOnTrail` is `d` gets zeros and a fresh `lastMatchedAt` persisted,
and the leaderboard delta updater runs with `newDistance = 0`,
`oldDistance = d`, so for an opted-in athlete with `d ≠ 0` every matching
aggregate row's value drops by `d` (created rows start at `0 - d`). -/
theorem C10_empty_polyline_decrements_leaderboard (st : DBState) (activity_id : Int)
    (main_geojson spurs_geojson : Option GeoJSON) (now : Nat) (row : ActivityRow)
    (d : ℝ) (dt : PyDateTime)
    (hact : lookupActivity st.activities activity_id = some row)
    (hath : row.athlete_id ≠ 0)
    (hpoly : row.polyline = "")
    (hold : row.distance_on_trail = some d)
    (hd : d ≠ 0)
    (huser : lookupUser st.users row.athlete_id = some true)
    (hparse : python_fromisoformat (String.mk (replaceZ row.start_date_local.data)) = some dt) :
    let n := daysFromCivil dt.year dt.month dt.day
    let mweek := "week_" ++ fmtDate (civilFromDays (mondayOnOrBefore n)).1.toNat
      (civilFromDays (mondayOnOrBefore n)).2.1.toNat (civilFromDays (mondayOnOrBefore n)).2.2.toNat
    let mmonth := "month_" ++ (padNum 4 dt.year ++ "-" ++ padNum 2 dt.month)
    let myear := "year_" ++ padNum 4 dt.year
    let buckets := ["all"] ++ (if row.type = "Run" ∨ row.type = "Walk" then ["foot"]
      else if row.type = "Ride" then ["bike"] else [])
    lookupActivity
        (match_activity activity_id main_geojson spurs_geojson now st).1.activities
        activity_id =
      some { row with
             distance_on_trail := some 0
             time_on_trail := some 0
             last_matched := some now } ∧
    ∀ w ∈ [mweek, mmonth, myear], ∀ b ∈ buckets,
      (aggLookup (match_activity activity_id main_geojson spurs_geojson now st).1.agg
          ⟨w, "distance", b, row.athlete_id⟩).map AggRow.value =
        some ((aggLookup st.agg ⟨w, "distance", b, row.athlete_id⟩).elim (0 - d)
          (fun r => r.value + (0 - d))) := by
  intro n mweek mmonth myear buckets
  unfold match_activity match_activity_body
  rw [hact]
  dsimp only
  rw [if_neg hath, if_pos hpoly, hold]
  dsimp only
  simp only [Option.getD_some]
  constructor
  · rw [update_leaderboard_activities]
    exact lookupActivity_update_metrics st activity_id 0 0 now row hact
  · intro w hw b hb
    have hst1act : lookupActivity
        (update_activity_trail_metrics activity_id 0 0 now st).activities activity_id =
        some { row with
               distance_on_trail := some 0
               time_on_trail := some 0
               last_matched := some now } :=
      lookupActivity_update_metrics st activity_id 0 0 now row hact
    have hdelta : (0 : ℝ) - d ≠ 0 := fun hx => hd (by linarith)
    exact update_leaderboard_upserts
      (update_activity_trail_metrics activity_id 0 0 now st) activity_id row.athlete_id
      0 d now
      { row with
        distance_on_trail := some 0
        time_on_trail := some 0
        last_matched := some now }
      ⟨mweek, mmonth, myear⟩ huser hst1act (get_window_keys_eq hparse) hdelta
      (week_ne_month_key _ _) (week_ne_year_key _ _) (month_ne_year_key _ _) w hw b hb

/-! ## Claims C10, C1 and C2 -/

/-- Fixture for the C10 witness: empty polyline, stored previous
distance-on-trail of 100, opted-in athlete, Run on Sunday 2026-02-15. -/
noncomputable def rowC10 : ActivityRow :=
  ⟨7, 11, "", 600, 1000, some 100, some 80, some 3, "2026-02-15T10:30:00Z", "Run"⟩

noncomputable def stC10 : DBState := ⟨[(1, rowC10)], [(7, true)], []⟩

/-- C10 witness. -/
theorem C10_empty_polyline_decrements_leaderboard_witness :
    (lookupActivity stC10.activities 1 = some rowC10 ∧
     rowC10.athlete_id ≠ 0 ∧
     rowC10.polyline = "" ∧
     rowC10.distance_on_trail = some 100 ∧
     (100 : ℝ) ≠ 0 ∧
     lookupUser stC10.users rowC10.athlete_id = some true ∧
     python_fromisoformat (String.mk (replaceZ rowC10.start_date_local.data)) =
       some ⟨2026, 2, 15, 10, 30, 0⟩) ∧
    (let n := daysFromCivil (2026 : Nat) (2 : Nat) (15 : Nat)
     let mweek := "week_" ++ fmtDate (civilFromDays (mondayOnOrBefore n)).1.toNat
       (civilFromDays (mondayOnOrBefore n)).2.1.toNat (civilFromDays (mondayOnOrBefore n)).2.2.toNat
     let mmonth := "month_" ++ (padNum 4 2026 ++ "-" ++ padNum 2 2)
     let myear := "year_" ++ padNum 4 2026
     let buckets := ["all"] ++ (if rowC10.type = "Run" ∨ rowC10.type = "Walk" then ["foot"]
       else if rowC10.type = "Ride" then ["bike"] else [])
     lookupActivity (match_activity 1 none none 5 stC10).1.activities 1 =
       some { rowC10 with
              distance_on_trail := some 0
              time_on_trail := some 0
              last_matched := some 5 } ∧
     ∀ w ∈ [mweek, mmonth, myear], ∀ b ∈ buckets,
       (aggLookup (match_activity 1 none none 5 stC10).1.agg
           ⟨w, "distance", b, rowC10.athlete_id⟩).map AggRow.value =
         some ((aggLookup stC10.agg ⟨w, "distance", b, rowC10.athlete_id⟩).elim
           ((0 : ℝ) - 100) (fun r => r.value + ((0 : ℝ) - 100)))) :=
  ⟨⟨rfl, by decide, rfl, rfl, by norm_num, rfl, by decide⟩,
   C10_empty_polyline_decrements_leaderboard stC10 1 none none 5 rowC10 100
     ⟨2026, 2, 15, 10, 30, 0⟩ rfl (by decide) rfl rfl (by norm_num) rfl (by decide)⟩

/-- Fixture for C1: activity 1 has the malformed polyline `"_"` (a single
continuation character, so decoding runs off the end of the string). -/
noncomputable def rowC1 : ActivityRow :=
  ⟨7, 11, "_", 600, 1000, none, none, none, "2026-02-15T10:30:00Z", "Run"⟩

noncomputable def stC1 : DBState := ⟨[(1, rowC1)], [(7, true)], []⟩

/-- C1 counterexample: on a malformed polyline the decode error escapes the
inner `try` and is caught by the outer handler, which returns normally but
persists nothing — the activity row still has `last_matched = none`,
contradicting the claim that zeros are persisted and `lastMatchedAt` is
stamped. -/
theorem C1_counterexample_decode_error_skips_persistence :
    match_activity 1 none none 5 stC1 = (stC1, ⟨1, 0, 0, .processingFailed⟩) ∧
    lookupActivity stC1.activities 1 = some rowC1 ∧
    rowC1.last_matched = none := by
  refine ⟨?_, rfl, rfl⟩
  simp [match_activity, match_activity_body, stC1, lookupActivity, rowC1,
    decode_polyline, decodeLoop, decodeChunk]

/-- C1 (amended): a decode failure on a non-empty polyline is caught only by
the outer handler of `match_activity`: the function returns normally with a
"Processing failed" record and the database state is completely unchanged
(no zero metrics, no `lastMatchedAt` stamp, no leaderboard update). -/
theorem C1_decode_error_returns_without_persistence (st : DBState) (activity_id : Int)
    (main_geojson spurs_geojson : Option GeoJSON) (now : Nat) (row : ActivityRow)
    (hact : lookupActivity st.activities activity_id = some row)
    (hath : row.athlete_id ≠ 0)
    (hpoly : row.polyline ≠ "")
    (hdec : decode_polyline row.polyline = none) :
    match_activity activity_id main_geojson spurs_geojson now st =
      (st, ⟨activity_id, 0, 0, .processingFailed⟩) := by
  unfold match_activity match_activity_body
  rw [hact]
  dsimp only
  rw [if_neg hath, if_neg hpoly, hdec]

/-- C1 witness for the amended theorem. -/
theorem C1_decode_error_returns_without_persistence_witness :
    (lookupActivity stC1.activities 1 = some rowC1 ∧
     rowC1.athlete_id ≠ 0 ∧
     rowC1.polyline ≠ "" ∧
     decode_polyline rowC1.polyline = none) ∧
    match_activity 1 none none 5 stC1 = (stC1, ⟨1, 0, 0, .processingFailed⟩) :=
  ⟨⟨rfl, by decide, by decide,
    by show decode_polyline "_" = none
       simp [decode_polyline, decodeLoop, decodeChunk]⟩,
   C1_decode_error_returns_without_persistence stC1 1 none none 5 rowC1 rfl
     (by decide) (by decide)
     (by show decode_polyline "_" = none
         simp [decode_polyline, decodeLoop, decodeChunk])⟩

/-- Fixture for C2: a database with no activities at all. -/
def stC2 : DBState := ⟨[], [], []⟩

/-- C2 counterexample: for a missing activity the internal `ValueError` is
raised but the outer `except Exception` of `match_activity` catches it, so
the function returns a normal "Processing failed" record instead of letting
the error propagate to its caller. -/
theorem C2_counterexample_notfound_is_swallowed :
    match_activity_body 1 none none 5 stC2 = .error .valueError ∧
    match_activity 1 none none 5 stC2 = (stC2, ⟨1, 0, 0, .processingFailed⟩) := by
  constructor
  · rfl
  · simp [match_activity, match_activity_body, stC2, lookupActivity]

/-- C2 (amended): for a missing activity id, `match_activity` performs no
persistence (the state is returned unchanged) and returns normally with a
"Processing failed" record; the `ValueError` raised inside the body never
escapes. -/
theorem C2_notfound_no_persistence_no_raise (st : DBState) (activity_id : Int)
    (main_geojson spurs_geojson : Option GeoJSON) (now : Nat)
    (h : lookupActivity st.activities activity_id = none) :
    match_activity_body activity_id main_geojson spurs_geojson now st =
      .error .valueError ∧
    match_activity activity_id main_geojson spurs_geojson now st =
      (st, ⟨activity_id, 0, 0, .processingFailed⟩) := by
  constructor
  · unfold match_activity_body
    rw [h]
  · unfold match_activity match_activity_body
    rw [h]

/-- C2 witness for the amended theorem. -/
theorem C2_notfound_no_persistence_no_raise_witness :
    (lookupActivity stC2.activities 1 = none) ∧
    match_activity_body 1 none none 5 stC2 = .error .valueError ∧
    match_activity 1 none none 5 stC2 = (stC2, ⟨1, 0, 0, .processingFailed⟩) :=
  ⟨rfl, C2_notfound_no_persistence_no_raise stC2 1 none none 5 rfl⟩

end RabbitMiles
